import Mathlib

/-! # cheritest: a shallow embedding of the sandbox-invocation harness

The development follows three C files:

* `cheritest.c` (namespace `CheritestC`): the stand-alone driver, its
  capability set-up code and its sandbox scenarios;
* `cheritest_libcheri.c` (namespace `Libcheri`): the libcheri scenarios
  (fault catch / no-catch, file-descriptor objects, md5, user callbacks);
* `cheritest_vm.c`: copy-on-write tests (no invocation is issued there).

Effects are made explicit.  A scenario is a function from an environment
(`Env`, the answers of everything outside the harness) and the history of
events so far to a `Run`: the extended history and the way the scenario
ended.  `register_t` is a 64-bit signed register; it is represented by `Int`
and the only operations applied to it here are comparisons with small
constants and the increment of a loop counter bounded by 10.
-/

namespace Cheritest

/-! ## Data model -/

/-- The signals the no-catch scenarios name (`sys/signal.h`). -/
inductive Signal
  | SIGPROT
  | SIGEMT
  | SIGSEGV
  | SIGBUS
  deriving DecidableEq, Repr

/-- The permission bits named in the sources (`CHERI_PERM_*`).  A permission
mask is a finite set of these; `|` on masks is union and the hardware "and"
of a mask is intersection. -/
inductive Perm
  | NON_EPHEMERAL
  | EXECUTE
  | LOAD
  | STORE
  | LOAD_CAP
  | STORE_CAP
  | STORE_EPHEM_CAP
  | SEAL
  | SETTYPE
  | USER0
  deriving DecidableEq, Repr

/-- A capability value: tag, bounds, offset, permission set, sealed bit and
object type. -/
structure Capability where
  tag : Bool
  base : Nat
  length : Nat
  offset : Nat
  perms : Finset Perm
  sealed : Bool
  otype : Int
  deriving DecidableEq

/-- The C `struct cheri_object`: a code capability and a data capability. -/
structure cheri_object where
  co_codecap : Capability
  co_datacap : Capability
  deriving DecidableEq

/-- Modelled from the spec: `cheri_zerocap()` comes from `machine/cheric.h`,
which is not part of the sources.  The spec describes the cleared capability
as all-zero and untagged with an empty permission set. -/
def cheri_zerocap : Capability :=
  { tag := false, base := 0, length := 0, offset := 0, perms := ∅,
    sealed := false, otype := 0 }

/-- The argument list of one `sandbox_object_cinvoke` call, as written at the
call site: the method number, the scalar arguments that follow it, the
system-object pair, and the capability arguments that follow the pair. -/
structure InvocationRequest where
  methodnum : Int
  scalars : List Int
  system_object : cheri_object
  caps : List Capability
  deriving DecidableEq

/-- What the caller observes of one invocation: either a register value comes
back, or control never returns to the caller (the process is terminated or a
handler takes over). -/
inductive InvokeResult
  | returned (v : Int)
  | noreturn
  deriving DecidableEq, Repr

/-- An argument handed to a `printf`-style format. -/
inductive FmtArg
  | reg (v : Int)
  | sig (s : Signal)
  | str (s : String)
  deriving DecidableEq, Repr

/-- Observable actions of the harness, in program order. -/
inductive Event
  | sigaction_dfl (sig : Signal) (ok : Bool)
  | alarm (seconds : Nat)
  | cinvoke (req : InvocationRequest) (res : InvokeResult)
  | fd_revoke (obj : cheri_object)
  | printf (fmt : String) (args : List FmtArg)
  deriving DecidableEq

/-- How a scenario ends.  `success` and `failure` are the two reporting
calls `cheritest_success()` and `cheritest_failure_err[x](fmt, ...)`, neither
of which returns; `noreturn` means an invocation never came back;
`returns` means the C function returned to its caller without reporting. -/
inductive Outcome
  | success
  | failure (fmt : String) (args : List FmtArg)
  | noreturn
  | returns
  deriving DecidableEq, Repr

/-- The result of running a scenario: the history after it, and its end. -/
structure Run where
  trace : List Event
  outcome : Outcome
  deriving DecidableEq

/-- The method numbers of `cheritest-helper.h` (not part of the sources); the
harness only passes them on, so they are taken as parameters. -/
structure HelperOps where
  CHERITEST_HELPER_OP_MD5 : Int
  CHERITEST_HELPER_OP_ABORT : Int
  CHERITEST_HELPER_OP_SPIN : Int
  CHERITEST_HELPER_OP_CP2_BOUND : Int
  CHERITEST_HELPER_OP_CP2_PERM : Int
  CHERITEST_HELPER_OP_CP2_TAG : Int
  CHERITEST_HELPER_OP_CP2_SEAL : Int
  CHERITEST_HELPER_OP_CS_HELLOWORLD : Int
  CHERITEST_HELPER_OP_CS_PUTS : Int
  CHERITEST_HELPER_OP_CS_PUTCHAR : Int
  CHERITEST_HELPER_OP_PRINTF : Int
  CHERITEST_HELPER_OP_VM_RFAULT : Int
  CHERITEST_HELPER_OP_VM_WFAULT : Int
  CHERITEST_HELPER_OP_VM_XFAULT : Int
  CHERITEST_HELPER_OP_SYSCALL : Int
  CHERITEST_HELPER_OP_DIVZERO : Int
  CHERITEST_HELPER_OP_SYSCAP : Int
  CHERITEST_HELPER_OP_MALLOC : Int
  CHERITEST_HELPER_OP_CS_CLOCK_GETTIME : Int
  CHERITEST_HELPER_OP_FD_FSTAT_C : Int
  CHERITEST_HELPER_OP_FD_LSEEK_C : Int
  CHERITEST_HELPER_OP_FD_READ_C : Int
  CHERITEST_HELPER_OP_FD_WRITE_C : Int
  CHERITEST_HELPER_LIBCHERI_USERFN : Int
  CHERITEST_HELPER_SAVE_CAPABILITY_IN_HEAP : Int
  CHERITEST_USERFN_RETURNARG : Int
  CHERITEST_USERFN_GETSTACK : Int
  CHERITEST_USERFN_SETSTACK : Int

/-- Everything outside the harness.  The answers may depend on the whole
history, so a callee with state (or one that notices a revocation) is
covered.  `md5_buf` is the content of the 33-byte stack buffer `buf` when the
md5 invocation comes back; `default_cap` is the ambient capability pointers
are converted under; `md5_string_addr` and `md5_buf_addr` are the addresses
of the md5 input string and of `buf`; `save_v_cap` is the value of
`(__capability void *)&v`; `userfn_getstack` and `userfn_setstack` are the
return values of `cheritest_libcheri_userfn_getstack()` and
`cheritest_libcheri_userfn_setstack(arg)`, which live in another file. -/
structure Env where
  ops : HelperOps
  sigaction : List Event → Signal → Bool
  cinvoke : List Event → InvocationRequest → InvokeResult
  md5_buf : List Event → InvocationRequest → List Nat
  system_object : cheri_object
  zero_fd_object : cheri_object
  default_cap : Capability
  md5_string_addr : Nat
  md5_buf_addr : Nat
  save_v_cap : Capability
  userfn_getstack : Int
  userfn_setstack : Int → Int

/-- Issue `sandbox_object_cinvoke(cheritest_objectp, ...)` with the given
argument list: ask the environment and log the call with its result. -/
def sandbox_object_cinvoke (env : Env) (h : List Event)
    (req : InvocationRequest) : List Event × InvokeResult :=
  let r := env.cinvoke h req
  (h ++ [Event.cinvoke req r], r)

/-! ## Capability primitives

The primitives come from `machine/cheric.h` and the hardware; they are not
part of the sources.  Each one is modelled from the capability model of the
spec and says so. -/

/-- Modelled from the spec: `derive(parent, new_base, new_length, new_perms)`
of the capability model (the header with the real primitive is missing).  The
derivation succeeds when the parent is tagged, the new range lies inside the
range of the parent and the new permissions are among the permissions of the
parent; otherwise it yields an untagged capability instead of raising. -/
def derive (parent : Capability) (new_base new_length : Nat)
    (new_perms : Finset Perm) : Capability :=
  if parent.tag = true ∧ parent.base ≤ new_base ∧
      new_base + new_length ≤ parent.base + parent.length ∧
      new_perms ⊆ parent.perms then
    { parent with base := new_base, length := new_length, offset := 0,
                  perms := new_perms }
  else
    cheri_zerocap

/-- Modelled from the spec: `cheri_andperm(cap, mask)` of `machine/cheric.h`
(missing) is the "permission intersection" derivation: the permission set is
intersected with the mask and nothing else changes. -/
def cheri_andperm (cap : Capability) (mask : Finset Perm) : Capability :=
  { cap with perms := cap.perms ∩ mask }

/-- Modelled from the spec: `cheri_ptr(ptr, len)` of `machine/cheric.h`
(missing) derives, from the ambient capability, one for the `len` bytes at
`ptr` with the permissions of the ambient capability. -/
def cheri_ptr (root : Capability) (ptr len : Nat) : Capability :=
  derive root ptr len root.perms

/-- Modelled from the spec: `cheri_ptrperm(ptr, len, perm)` of
`machine/cheric.h` (missing): `cheri_ptr` followed by `cheri_andperm`. -/
def cheri_ptrperm (root : Capability) (ptr len : Nat) (perm : Finset Perm) :
    Capability :=
  cheri_andperm (cheri_ptr root ptr len) perm

/-- Modelled from the spec: `cheri_ptrtype(ptr, len, type)` of
`machine/cheric.h` (missing): `cheri_ptr` followed by setting the type
field. -/
def cheri_ptrtype (root : Capability) (ptr len : Nat) (type : Int) :
    Capability :=
  { cheri_ptr root ptr len with otype := type }

/-- Modelled from the spec: `cheri_ephemeral(cap)` of `machine/cheric.h`
(missing) drops the non-ephemeral permission and changes nothing else. -/
def cheri_ephemeral (cap : Capability) : Capability :=
  { cap with perms := cap.perms.erase Perm.NON_EPHEMERAL }

/-- The two sealing primitives `cheri_sealcode(cap)` and
`cheri_sealdata(cap, typecap)` of `machine/cheric.h` (missing).  They are
hardware instructions that can refuse to seal; `none` is a refusal.  They are
taken as parameters. -/
structure SealOps where
  sealcode : Capability → Option Capability
  sealdata : Capability → Capability → Option Capability

/-- The contract of a sealing primitive: when it seals, the result is its
first operand with the sealed bit set and a type chosen by the primitive;
tag, bounds, offset and permissions are those of the operand. -/
def SealOps.Marks (S : SealOps) : Prop :=
  (∀ c r, S.sealcode c = some r →
      r = { c with sealed := true, otype := r.otype }) ∧
  (∀ c t r, S.sealdata c t = some r →
      r = { c with sealed := true, otype := r.otype })

/-- Modelled from the spec: `seal(data_cap, code_cap_as_type)` "fails if the
data capability lacks the seal permission"; when it does not fail, the sealed
capability takes its type from the second operand. -/
def spec_seal (data_cap code_cap_as_type : Capability) : Option Capability :=
  if Perm.SEAL ∈ data_cap.perms then
    some { data_cap with sealed := true, otype := code_cap_as_type.otype }
  else
    none

/-- The sealing primitives as the spec words them: both are `spec_seal`, the
code capability being its own type. -/
def specSealOps : SealOps :=
  { sealcode := fun c => spec_seal c c,
    sealdata := fun c t => spec_seal c t }

/-- Sealing primitives that look for the seal permission on the capability
that supplies the type (the second operand of `cheri_sealdata`, the operand
itself for `cheri_sealcode`). -/
def authoritySealOps : SealOps :=
  { sealcode := fun c =>
      if Perm.SEAL ∈ c.perms then
        some { c with sealed := true, otype := c.otype }
      else none,
    sealdata := fun c t =>
      if Perm.SEAL ∈ t.perms then
        some { c with sealed := true, otype := t.otype }
      else none }

/-! ## C strings -/

/-- C `strlen` on a byte buffer: the number of bytes before the first NUL
(the end of the list stands for a NUL). -/
def strlen : List Nat → Nat
  | [] => 0
  | c :: cs => if c = 0 then 0 else strlen cs + 1

/-- C `strcmp` on byte buffers: zero when the two C strings agree, otherwise
the difference of the first two bytes that differ (the end of a list stands
for a NUL). -/
def strcmp : List Nat → List Nat → Int
  | [], [] => 0
  | [], b :: _ => if b = 0 then 0 else -(b : Int)
  | a :: _, [] => if a = 0 then 0 else (a : Int)
  | a :: as, b :: bs =>
      if a = b then (if a = 0 then 0 else strcmp as bs)
      else (a : Int) - (b : Int)

/-- The bytes of a C string literal, terminating NUL included: what a
`char x[] = "..."` array holds. -/
def c_string (s : String) : List Nat :=
  s.toList.map Char.toNat ++ [0]

namespace Libcheri

/-! ## `cheritest_libcheri.c`: fault scenarios -/

/-- The request of `test_sandbox_op(op)` and `cheritest_invoke_simple_op(op)`:
seven zero scalars, the system object, six `cheri_zerocap()`. -/
def simple_request (env : Env) (op : Int) : InvocationRequest :=
  { methodnum := op,
    scalars := [0, 0, 0, 0, 0, 0, 0],
    system_object := env.system_object,
    caps := [cheri_zerocap, cheri_zerocap, cheri_zerocap,
             cheri_zerocap, cheri_zerocap, cheri_zerocap] }

/-- C `test_sandbox_op`: `alarm(10)`, then the invocation; its value is the
value of the invocation. -/
def test_sandbox_op (env : Env) (op : Int) (h : List Event) :
    List Event × InvokeResult :=
  sandbox_object_cinvoke env (h ++ [Event.alarm 10]) (simple_request env op)

/-- C `signal_handler_clear`: install `SIG_DFL` for `sig` with `sigaction`.
The flag is `true` when `sigaction` succeeded (the function returns) and
`false` when it reported an error (the caller then sees
`cheritest_failure_err`). -/
def signal_handler_clear (env : Env) (sig : Signal) (h : List Event) :
    List Event × Bool :=
  let ok := env.sigaction h sig
  (h ++ [Event.sigaction_dfl sig ok], ok)

/-- The body shared, textually, by the eight `test_sandbox_*_catch`
functions: invoke, then `cheritest_failure_errx("invoke returned")`. -/
def catch_body (env : Env) (op : Int) (h : List Event) : Run :=
  match test_sandbox_op env op h with
  | (h1, InvokeResult.returned _) =>
      { trace := h1, outcome := Outcome.failure "invoke returned" [] }
  | (h1, InvokeResult.noreturn) =>
      { trace := h1, outcome := Outcome.noreturn }

/-- The body shared, textually, by the eight `test_sandbox_*_nocatch`
functions: `signal_handler_clear(sig)`, `v = test_sandbox_op(op)`,
`if (v != -1) cheritest_failure_errx(...)`, `cheritest_success()`. -/
def nocatch_body (env : Env) (sig : Signal) (op : Int) (h : List Event) :
    Run :=
  match signal_handler_clear env sig h with
  | (h1, false) =>
      { trace := h1,
        outcome := Outcome.failure "clearing handler for sig %d"
          [FmtArg.sig sig] }
  | (h1, true) =>
      match test_sandbox_op env op h1 with
      | (h2, InvokeResult.returned v) =>
          if v ≠ -1 then
            { trace := h2,
              outcome := Outcome.failure "invoke returned %d (expected %d)"
                [FmtArg.reg v, FmtArg.reg (-1)] }
          else
            { trace := h2, outcome := Outcome.success }
      | (h2, InvokeResult.noreturn) =>
          { trace := h2, outcome := Outcome.noreturn }

def test_sandbox_cp2_bound_catch (env : Env) (h : List Event) : Run :=
  catch_body env env.ops.CHERITEST_HELPER_OP_CP2_BOUND h

def test_sandbox_cp2_bound_nocatch (env : Env) (h : List Event) : Run :=
  nocatch_body env Signal.SIGPROT env.ops.CHERITEST_HELPER_OP_CP2_BOUND h

def test_sandbox_cp2_perm_catch (env : Env) (h : List Event) : Run :=
  catch_body env env.ops.CHERITEST_HELPER_OP_CP2_PERM h

def test_sandbox_cp2_perm_nocatch (env : Env) (h : List Event) : Run :=
  nocatch_body env Signal.SIGPROT env.ops.CHERITEST_HELPER_OP_CP2_PERM h

def test_sandbox_cp2_tag_catch (env : Env) (h : List Event) : Run :=
  catch_body env env.ops.CHERITEST_HELPER_OP_CP2_TAG h

def test_sandbox_cp2_tag_nocatch (env : Env) (h : List Event) : Run :=
  nocatch_body env Signal.SIGPROT env.ops.CHERITEST_HELPER_OP_CP2_TAG h

def test_sandbox_cp2_seal_catch (env : Env) (h : List Event) : Run :=
  catch_body env env.ops.CHERITEST_HELPER_OP_CP2_SEAL h

def test_sandbox_cp2_seal_nocatch (env : Env) (h : List Event) : Run :=
  nocatch_body env Signal.SIGPROT env.ops.CHERITEST_HELPER_OP_CP2_SEAL h

def test_sandbox_divzero_catch (env : Env) (h : List Event) : Run :=
  catch_body env env.ops.CHERITEST_HELPER_OP_DIVZERO h

def test_sandbox_divzero_nocatch (env : Env) (h : List Event) : Run :=
  nocatch_body env Signal.SIGEMT env.ops.CHERITEST_HELPER_OP_DIVZERO h

def test_sandbox_vm_rfault_catch (env : Env) (h : List Event) : Run :=
  catch_body env env.ops.CHERITEST_HELPER_OP_VM_RFAULT h

def test_sandbox_vm_rfault_nocatch (env : Env) (h : List Event) : Run :=
  nocatch_body env Signal.SIGSEGV env.ops.CHERITEST_HELPER_OP_VM_RFAULT h

def test_sandbox_vm_wfault_catch (env : Env) (h : List Event) : Run :=
  catch_body env env.ops.CHERITEST_HELPER_OP_VM_WFAULT h

def test_sandbox_vm_wfault_nocatch (env : Env) (h : List Event) : Run :=
  nocatch_body env Signal.SIGSEGV env.ops.CHERITEST_HELPER_OP_VM_WFAULT h

def test_sandbox_vm_xfault_catch (env : Env) (h : List Event) : Run :=
  catch_body env env.ops.CHERITEST_HELPER_OP_VM_XFAULT h

def test_sandbox_vm_xfault_nocatch (env : Env) (h : List Event) : Run :=
  nocatch_body env Signal.SIGBUS env.ops.CHERITEST_HELPER_OP_VM_XFAULT h

/-- The eight fault operations of the helper. -/
inductive FaultKind
  | cp2_bound
  | cp2_perm
  | cp2_tag
  | cp2_seal
  | divzero
  | vm_rfault
  | vm_wfault
  | vm_xfault
  deriving DecidableEq, Repr

/-- The scenario `test_sandbox_K_catch` for each fault kind `K`. -/
def catch_scenario : FaultKind → Env → List Event → Run
  | FaultKind.cp2_bound => test_sandbox_cp2_bound_catch
  | FaultKind.cp2_perm => test_sandbox_cp2_perm_catch
  | FaultKind.cp2_tag => test_sandbox_cp2_tag_catch
  | FaultKind.cp2_seal => test_sandbox_cp2_seal_catch
  | FaultKind.divzero => test_sandbox_divzero_catch
  | FaultKind.vm_rfault => test_sandbox_vm_rfault_catch
  | FaultKind.vm_wfault => test_sandbox_vm_wfault_catch
  | FaultKind.vm_xfault => test_sandbox_vm_xfault_catch

/-- The scenario `test_sandbox_K_nocatch` for each fault kind `K`. -/
def nocatch_scenario : FaultKind → Env → List Event → Run
  | FaultKind.cp2_bound => test_sandbox_cp2_bound_nocatch
  | FaultKind.cp2_perm => test_sandbox_cp2_perm_nocatch
  | FaultKind.cp2_tag => test_sandbox_cp2_tag_nocatch
  | FaultKind.cp2_seal => test_sandbox_cp2_seal_nocatch
  | FaultKind.divzero => test_sandbox_divzero_nocatch
  | FaultKind.vm_rfault => test_sandbox_vm_rfault_nocatch
  | FaultKind.vm_wfault => test_sandbox_vm_wfault_nocatch
  | FaultKind.vm_xfault => test_sandbox_vm_xfault_nocatch

/-- The helper operation that injects a fault of each kind. -/
def FaultKind.helper_op (ops : HelperOps) : FaultKind → Int
  | FaultKind.cp2_bound => ops.CHERITEST_HELPER_OP_CP2_BOUND
  | FaultKind.cp2_perm => ops.CHERITEST_HELPER_OP_CP2_PERM
  | FaultKind.cp2_tag => ops.CHERITEST_HELPER_OP_CP2_TAG
  | FaultKind.cp2_seal => ops.CHERITEST_HELPER_OP_CP2_SEAL
  | FaultKind.divzero => ops.CHERITEST_HELPER_OP_DIVZERO
  | FaultKind.vm_rfault => ops.CHERITEST_HELPER_OP_VM_RFAULT
  | FaultKind.vm_wfault => ops.CHERITEST_HELPER_OP_VM_WFAULT
  | FaultKind.vm_xfault => ops.CHERITEST_HELPER_OP_VM_XFAULT

/-- The signal the specification associates with each fault kind: the
protection-fault signal for the capability violations, the emulation-trap
signal for divide-by-zero, the segmentation-fault signal for the unmapped
read and write, the bus-fault signal for `vm_xfault`. -/
def expected_signal : FaultKind → Signal
  | FaultKind.cp2_bound => Signal.SIGPROT
  | FaultKind.cp2_perm => Signal.SIGPROT
  | FaultKind.cp2_tag => Signal.SIGPROT
  | FaultKind.cp2_seal => Signal.SIGPROT
  | FaultKind.divzero => Signal.SIGEMT
  | FaultKind.vm_rfault => Signal.SIGSEGV
  | FaultKind.vm_wfault => Signal.SIGSEGV
  | FaultKind.vm_xfault => Signal.SIGBUS

/-- The signal whose disposition an event resets, if it is such an event. -/
def reset_signal : Event → Option Signal
  | Event.sigaction_dfl sig _ => some sig
  | _ => none

/-- The result of the invocation a fault scenario issues for kind `K` when
`h` is the history at the time of `test_sandbox_op`. -/
def fault_invocation (K : FaultKind) (env : Env) (h : List Event) :
    InvokeResult :=
  env.cinvoke (h ++ [Event.alarm 10])
    (simple_request env (K.helper_op env.ops))

/-! ## `cheritest_libcheri.c`: file-descriptor object, simple operations -/

/-- The request of `cheritest_invoke_fd_op(op)`: seven zero scalars, the
system object, and the `/dev/zero` pair in the third and fourth capability
arguments, the other four being `cheri_zerocap()`. -/
def fd_request (env : Env) (op : Int) : InvocationRequest :=
  { methodnum := op,
    scalars := [0, 0, 0, 0, 0, 0, 0],
    system_object := env.system_object,
    caps := [cheri_zerocap, cheri_zerocap,
             env.zero_fd_object.co_codecap, env.zero_fd_object.co_datacap,
             cheri_zerocap, cheri_zerocap] }

/-- C `cheritest_invoke_fd_op`: the invocation, whose value is stored in `v`
and not looked at, then `cheritest_success()`. -/
def cheritest_invoke_fd_op (env : Env) (op : Int) (h : List Event) : Run :=
  match sandbox_object_cinvoke env h (fd_request env op) with
  | (h1, InvokeResult.returned _) =>
      { trace := h1, outcome := Outcome.success }
  | (h1, InvokeResult.noreturn) =>
      { trace := h1, outcome := Outcome.noreturn }

/-- C `cheritest_revoke_fd`: `cheri_fd_revoke(zero_fd_object)`, then
`cheritest_success()`. -/
def cheritest_revoke_fd (env : Env) (h : List Event) : Run :=
  { trace := h ++ [Event.fd_revoke env.zero_fd_object],
    outcome := Outcome.success }

/-- C `cheritest_invoke_simple_op`: `alarm(10)`, the invocation, whose value
is not looked at, then `cheritest_success()`. -/
def cheritest_invoke_simple_op (env : Env) (op : Int) (h : List Event) :
    Run :=
  match sandbox_object_cinvoke env (h ++ [Event.alarm 10])
      (simple_request env op) with
  | (h1, InvokeResult.returned _) =>
      { trace := h1, outcome := Outcome.success }
  | (h1, InvokeResult.noreturn) =>
      { trace := h1, outcome := Outcome.noreturn }

/-! ## `cheritest_libcheri.c`: md5 -/

/-- C `static char string_to_md5[] = "hello world";` -/
def string_to_md5 : List Nat := c_string "hello world"

/-- C `static char string_md5[] = "5eb63bbbe01eeed093cb22bb8f5acdc3";` -/
def string_md5 : List Nat := c_string "5eb63bbbe01eeed093cb22bb8f5acdc3"

/-- The request of `cheritest_invoke_md5`: the length of the string in the
second scalar argument, the input and output capabilities first among the
capability arguments. -/
def md5_request (env : Env) : InvocationRequest :=
  let cclear := cheri_zerocap
  let md5cap := cheri_ptrperm env.default_cap env.md5_string_addr
    string_to_md5.length {Perm.LOAD}
  let bufcap := cheri_ptrperm env.default_cap env.md5_buf_addr 33
    {Perm.STORE}
  { methodnum := env.ops.CHERITEST_HELPER_OP_MD5,
    scalars := [0, (strlen string_to_md5 : Int), 0, 0, 0, 0, 0],
    system_object := env.system_object,
    caps := [md5cap, bufcap, cclear, cclear, cclear, cclear] }

/-- C `cheritest_invoke_md5`: the invocation, `buf[32] = 0`, then the
comparison of `buf` with `string_md5`. -/
def cheritest_invoke_md5 (env : Env) (h : List Event) : Run :=
  match sandbox_object_cinvoke env h (md5_request env) with
  | (h1, InvokeResult.returned _) =>
      let buf := (env.md5_buf h (md5_request env)).set 32 0
      if strcmp buf string_md5 ≠ 0 then
        { trace := h1,
          outcome := Outcome.failure
            "Incorrect MD5 checksum returned from sandbox" [] }
      else
        { trace := h1, outcome := Outcome.success }
  | (h1, InvokeResult.noreturn) =>
      { trace := h1, outcome := Outcome.noreturn }

/-! ## `cheritest_libcheri.c`: user callbacks -/

/-- What the host callback hands back: a register value, or a test failure
(the reporting call does not return, so the callee gets nothing). -/
inductive HandlerResult
  | value (v : Int)
  | failure (fmt : String) (args : List FmtArg)
  deriving DecidableEq, Repr

/-- C `cheritest_libcheri_userfn_handler`: a switch on the method number. -/
def cheritest_libcheri_userfn_handler (env : Env) (methodnum arg : Int)
    (_a2 _a3 _a4 _a5 _a6 _a7 : Int) (_system_object : cheri_object)
    (_c3 _c4 _c5 _c6 _c7 : Capability) : HandlerResult :=
  if methodnum = env.ops.CHERITEST_USERFN_RETURNARG then
    HandlerResult.value arg
  else if methodnum = env.ops.CHERITEST_USERFN_GETSTACK then
    HandlerResult.value env.userfn_getstack
  else if methodnum = env.ops.CHERITEST_USERFN_SETSTACK then
    HandlerResult.value (env.userfn_setstack arg)
  else
    HandlerResult.failure "%s: unexpected method %ld"
      [FmtArg.str "cheritest_libcheri_userfn_handler", FmtArg.reg methodnum]

/-- The request `cheritest_libcheri_userfn` builds in iteration `i`. -/
def userfn_request (env : Env) (i : Int) : InvocationRequest :=
  let cclear := cheri_zerocap
  { methodnum := env.ops.CHERITEST_HELPER_LIBCHERI_USERFN,
    scalars := [env.ops.CHERITEST_USERFN_RETURNARG, i, 0, 0, 0, 0, 0],
    system_object := env.system_object,
    caps := [cclear, cclear, cclear, cclear, cclear, cclear] }

/-- The loop `for (i = 0; i < 10; i++)` of `cheritest_libcheri_userfn`, from
the value `i` of the counter on, with the `cheritest_success()` after it. -/
def userfn_loop (env : Env) (i : Int) (h : List Event) : Run :=
  if i < 10 then
    match sandbox_object_cinvoke env h (userfn_request env i) with
    | (h1, InvokeResult.returned v) =>
        if v ≠ i then
          { trace := h1,
            outcome := Outcome.failure
              "Incorrect return value 0x%lx (expected 0x%lx)\n"
              [FmtArg.reg v, FmtArg.reg i] }
        else
          userfn_loop env (i + 1) h1
    | (h1, InvokeResult.noreturn) =>
        { trace := h1, outcome := Outcome.noreturn }
  else
    { trace := h, outcome := Outcome.success }
termination_by (10 - i).toNat
decreasing_by omega

/-- C `cheritest_libcheri_userfn`. -/
def cheritest_libcheri_userfn (env : Env) (h : List Event) : Run :=
  userfn_loop env 0 h

/-- A callee for `CHERITEST_HELPER_LIBCHERI_USERFN` that relays its first two
scalar arguments, the method and its argument, to the registered handler
(zeros and cleared capabilities for the rest) and returns what the handler
returns; nothing comes back when the handler reports a failure. -/
def relay_callee (env : Env) (req : InvocationRequest) : InvokeResult :=
  match req.scalars with
  | m :: a :: _ =>
      match cheritest_libcheri_userfn_handler env m a 0 0 0 0 0 0
          req.system_object cheri_zerocap cheri_zerocap cheri_zerocap
          cheri_zerocap cheri_zerocap with
      | HandlerResult.value v => InvokeResult.returned v
      | HandlerResult.failure _ _ => InvokeResult.noreturn
  | _ => InvokeResult.noreturn

/-- The request of `cheritest_save_global` and, with the ephemeral
capability, of `cheritest_save_ephemeral`. -/
def save_request (env : Env) (carg : Capability) : InvocationRequest :=
  let cclear := cheri_zerocap
  { methodnum := env.ops.CHERITEST_HELPER_SAVE_CAPABILITY_IN_HEAP,
    scalars := [0, 0, 0, 0, 0, 0, 0],
    system_object := env.system_object,
    caps := [carg, cclear, cclear, cclear, cclear, cclear] }

/-- C `cheritest_save_global`. -/
def cheritest_save_global (env : Env) (h : List Event) : Run :=
  let carg := env.save_v_cap
  match sandbox_object_cinvoke env h (save_request env carg) with
  | (h1, InvokeResult.returned v) =>
      if v ≠ 0 then
        { trace := h1,
          outcome := Outcome.failure
            "Incorrect return value 0x%lx (expected 0)\n" [FmtArg.reg v] }
      else
        { trace := h1, outcome := Outcome.success }
  | (h1, InvokeResult.noreturn) =>
      { trace := h1, outcome := Outcome.noreturn }

/-- C `cheritest_save_ephemeral`. -/
def cheritest_save_ephemeral (env : Env) (h : List Event) : Run :=
  let carg := cheri_ephemeral env.save_v_cap
  match sandbox_object_cinvoke env h (save_request env carg) with
  | (h1, InvokeResult.returned _) =>
      { trace := h1,
        outcome := Outcome.failure "Method failed to properly fail\n" [] }
  | (h1, InvokeResult.noreturn) =>
      { trace := h1, outcome := Outcome.noreturn }

/-- Every argument list `cheritest_libcheri.c` hands to
`sandbox_object_cinvoke`: one for each call site and, for the loop of
`cheritest_libcheri_userfn`, one for each value of the counter. -/
inductive CallSite
  | invoke_fd_op (op : Int)
  | invoke_simple_op (op : Int)
  | sandbox_op (op : Int)
  | invoke_md5
  | userfn (i : Int)
  | save_global
  | save_ephemeral

/-- The argument list built at a call site. -/
def CallSite.request (env : Env) : CallSite → InvocationRequest
  | CallSite.invoke_fd_op op => fd_request env op
  | CallSite.invoke_simple_op op => simple_request env op
  | CallSite.sandbox_op op => simple_request env op
  | CallSite.invoke_md5 => md5_request env
  | CallSite.userfn i => userfn_request env i
  | CallSite.save_global => save_request env env.save_v_cap
  | CallSite.save_ephemeral => save_request env (cheri_ephemeral env.save_v_cap)

/-- The capability arguments a call site uses for an argument of its own, by
position (0 is the first capability after the system-object pair). -/
def CallSite.used : CallSite → List Nat
  | CallSite.invoke_fd_op _ => [2, 3]
  | CallSite.invoke_simple_op _ => []
  | CallSite.sandbox_op _ => []
  | CallSite.invoke_md5 => [0, 1]
  | CallSite.userfn _ => []
  | CallSite.save_global => [0]
  | CallSite.save_ephemeral => [0]

end Libcheri

namespace CheritestC

/-! ## `cheritest.c` -/

/-- C `cheritest_sandbox_setup`: the code and data capabilities stored through
`codecapp` and `datacapp`, or `none` when a sealing primitive refuses.
`(uintptr_t)sandbox_end - (uintptr_t)sandbox_base` is a subtraction of 64-bit
unsigned values. -/
def cheritest_sandbox_setup (S : SealOps) (root : Capability)
    (sandbox_base sandbox_end : Nat) (sandbox_pc : Int) :
    Option (Capability × Capability) :=
  let basecap := cheri_ptrtype root sandbox_base
    ((sandbox_end + 2 ^ 64 - sandbox_base) % 2 ^ 64) sandbox_pc
  let codecap := cheri_andperm basecap
    {Perm.EXECUTE, Perm.SEAL, Perm.STORE_EPHEM_CAP}
  match S.sealcode codecap with
  | none => none
  | some codecap =>
      let datacap := cheri_andperm basecap
        {Perm.LOAD, Perm.STORE, Perm.LOAD_CAP, Perm.STORE_CAP}
      match S.sealdata datacap basecap with
      | none => none
      | some datacap => some (codecap, datacap)

/-- The value of `basecap` in `cheritest_sandbox_setup`. -/
def sandbox_basecap (root : Capability) (sandbox_base sandbox_end : Nat)
    (sandbox_pc : Int) : Capability :=
  cheri_ptrtype root sandbox_base
    ((sandbox_end + 2 ^ 64 - sandbox_base) % 2 ^ 64) sandbox_pc

/-- The two operands of the call `cheri_sealdata(datacap, basecap)` in
`cheritest_sandbox_setup`: the data capability to be sealed and the
capability that supplies the type. -/
def sealdata_operands (root : Capability) (sandbox_base sandbox_end : Nat)
    (sandbox_pc : Int) : Capability × Capability :=
  let basecap := sandbox_basecap root sandbox_base sandbox_end sandbox_pc
  (cheri_andperm basecap
      {Perm.LOAD, Perm.STORE, Perm.LOAD_CAP, Perm.STORE_CAP},
    basecap)

/-- The operand of the call `cheri_sealcode(codecap)` in
`cheritest_sandbox_setup`. -/
def sealcode_operand (root : Capability) (sandbox_base sandbox_end : Nat)
    (sandbox_pc : Int) : Capability :=
  cheri_andperm (sandbox_basecap root sandbox_base sandbox_end sandbox_pc)
    {Perm.EXECUTE, Perm.SEAL, Perm.STORE_EPHEM_CAP}

/-- The request of `cheritest_invoke_fd_op(op)` in `cheritest.c`. -/
def fd_request (env : Env) (op : Int) : InvocationRequest :=
  { methodnum := op,
    scalars := [0, 0, 0, 0, 0, 0, 0],
    system_object := env.system_object,
    caps := [cheri_zerocap, cheri_zerocap,
             env.zero_fd_object.co_codecap, env.zero_fd_object.co_datacap,
             cheri_zerocap, cheri_zerocap] }

/-- C `cheritest_invoke_fd_op` of `cheritest.c`: the invocation, then a
`printf` of the value; the function returns to `main`. -/
def cheritest_invoke_fd_op (env : Env) (op : Int) (h : List Event) : Run :=
  match sandbox_object_cinvoke env h (fd_request env op) with
  | (h1, InvokeResult.returned v) =>
      { trace := h1 ++ [Event.printf "%s: sandbox returned %jd\n"
          [FmtArg.str "cheritest_invoke_fd_op", FmtArg.reg v]],
        outcome := Outcome.returns }
  | (h1, InvokeResult.noreturn) =>
      { trace := h1, outcome := Outcome.noreturn }

/-- C `cheritest_revoke_fd` of `cheritest.c`. -/
def cheritest_revoke_fd (env : Env) (h : List Event) : Run :=
  { trace := h ++ [Event.fd_revoke env.zero_fd_object,
      Event.printf "/dev/zero fd_object revoked\n" []],
    outcome := Outcome.returns }

/-- The request of `cheritest_invoke_simple_op(op)` in `cheritest.c`. -/
def simple_request (env : Env) (op : Int) : InvocationRequest :=
  { methodnum := op,
    scalars := [0, 0, 0, 0, 0, 0, 0],
    system_object := env.system_object,
    caps := [cheri_zerocap, cheri_zerocap, cheri_zerocap,
             cheri_zerocap, cheri_zerocap, cheri_zerocap] }

/-- C `cheritest_invoke_simple_op` of `cheritest.c` (no `alarm` here). -/
def cheritest_invoke_simple_op (env : Env) (op : Int) (h : List Event) :
    Run :=
  match sandbox_object_cinvoke env h (simple_request env op) with
  | (h1, InvokeResult.returned v) =>
      { trace := h1 ++ [Event.printf "%s: sandbox returned %jd\n"
          [FmtArg.str "cheritest_invoke_simple_op", FmtArg.reg v]],
        outcome := Outcome.returns }
  | (h1, InvokeResult.noreturn) =>
      { trace := h1, outcome := Outcome.noreturn }

/-- C `static char md5string[] = "hello world";` -/
def md5string : List Nat := c_string "hello world"

/-- The request of `cheritest_invoke_md5` in `cheritest.c`: the length of the
string is the first scalar argument. -/
def md5_request (env : Env) : InvocationRequest :=
  let cclear := cheri_zerocap
  let md5cap := cheri_ptrperm env.default_cap env.md5_string_addr
    md5string.length {Perm.LOAD}
  let bufcap := cheri_ptrperm env.default_cap env.md5_buf_addr 33
    {Perm.STORE}
  { methodnum := env.ops.CHERITEST_HELPER_OP_MD5,
    scalars := [(strlen md5string : Int), 0, 0, 0, 0, 0, 0],
    system_object := env.system_object,
    caps := [md5cap, bufcap, cclear, cclear, cclear, cclear] }

/-- Every argument list `cheritest.c` hands to `sandbox_object_cinvoke`. -/
inductive CallSite
  | invoke_fd_op (op : Int)
  | invoke_simple_op (op : Int)
  | invoke_md5

/-- The argument list built at a call site of `cheritest.c`. -/
def CallSite.request (env : Env) : CallSite → InvocationRequest
  | CallSite.invoke_fd_op op => fd_request env op
  | CallSite.invoke_simple_op op => simple_request env op
  | CallSite.invoke_md5 => md5_request env

/-- The capability arguments a call site of `cheritest.c` uses for an
argument of its own, by position. -/
def CallSite.used : CallSite → List Nat
  | CallSite.invoke_fd_op _ => [2, 3]
  | CallSite.invoke_simple_op _ => []
  | CallSite.invoke_md5 => [0, 1]

end CheritestC

/-! ## MD5

The digest is computed by the callee, which is not part of the sources; the
harness only holds the expected constant. -/

namespace MD5

/-- Modelled from the spec: the "deterministic hash" of the md5 scenario is
computed outside the sources.  This is the table of additive constants of
MD5 (RFC 1321): the integer part of `2^32 * |sin (i + 1)|`. -/
def K : List Nat :=
  [0xd76aa478, 0xe8c7b756, 0x242070db, 0xc1bdceee,
   0xf57c0faf, 0x4787c62a, 0xa8304613, 0xfd469501,
   0x698098d8, 0x8b44f7af, 0xffff5bb1, 0x895cd7be,
   0x6b901122, 0xfd987193, 0xa679438e, 0x49b40821,
   0xf61e2562, 0xc040b340, 0x265e5a51, 0xe9b6c7aa,
   0xd62f105d, 0x02441453, 0xd8a1e681, 0xe7d3fbc8,
   0x21e1cde6, 0xc33707d6, 0xf4d50d87, 0x455a14ed,
   0xa9e3e905, 0xfcefa3f8, 0x676f02d9, 0x8d2a4c8a,
   0xfffa3942, 0x8771f681, 0x6d9d6122, 0xfde5380c,
   0xa4beea44, 0x4bdecfa9, 0xf6bb4b60, 0xbebfbc70,
   0x289b7ec6, 0xeaa127fa, 0xd4ef3085, 0x04881d05,
   0xd9d4d039, 0xe6db99e5, 0x1fa27cf8, 0xc4ac5665,
   0xf4292244, 0x432aff97, 0xab9423a7, 0xfc93a039,
   0x655b59c3, 0x8f0ccc92, 0xffeff47d, 0x85845dd1,
   0x6fa87e4f, 0xfe2ce6e0, 0xa3014314, 0x4e0811a1,
   0xf7537e82, 0xbd3af235, 0x2ad7d2bb, 0xeb86d391]

/-- Modelled from the spec: the hash is computed outside the sources.  This
is the table of per-round left-rotation amounts of MD5 (RFC 1321). -/
def S : List Nat :=
  [7, 12, 17, 22, 7, 12, 17, 22, 7, 12, 17, 22, 7, 12, 17, 22,
   5, 9, 14, 20, 5, 9, 14, 20, 5, 9, 14, 20, 5, 9, 14, 20,
   4, 11, 16, 23, 4, 11, 16, 23, 4, 11, 16, 23, 4, 11, 16, 23,
   6, 10, 15, 21, 6, 10, 15, 21, 6, 10, 15, 21, 6, 10, 15, 21]

/-- Reduction to a 32-bit word. -/
def w32 (x : Nat) : Nat := x % 4294967296

/-- Left rotation of a 32-bit word by `s` bits, `0 < s < 32`. -/
def rotl (x s : Nat) : Nat := w32 (x <<< s) ||| (x >>> (32 - s))

/-- Bitwise complement of a 32-bit word. -/
def not32 (x : Nat) : Nat := x ^^^ 0xffffffff

/-- The auxiliary function of step `i` (F, G, H, I of RFC 1321). -/
def fmix (i b c d : Nat) : Nat :=
  if i < 16 then (b &&& c) ||| (not32 b &&& d)
  else if i < 32 then (d &&& b) ||| (not32 d &&& c)
  else if i < 48 then b ^^^ c ^^^ d
  else c ^^^ (b ||| not32 d)

/-- The index of the message word used in step `i`. -/
def gidx (i : Nat) : Nat :=
  if i < 16 then i
  else if i < 32 then (5 * i + 1) % 16
  else if i < 48 then (3 * i + 5) % 16
  else (7 * i) % 16

/-- The four 32-bit chaining words. -/
structure St where
  a : Nat
  b : Nat
  c : Nat
  d : Nat
  deriving DecidableEq, Repr

/-- One of the 64 steps of the compression function on message words `m`. -/
def step (m : List Nat) (st : St) (i : Nat) : St :=
  let f := w32 (fmix i st.b st.c st.d + st.a + K.getD i 0 + m.getD (gidx i) 0)
  { a := st.d, d := st.c, c := st.b, b := w32 (st.b + rotl f (S.getD i 0)) }

/-- A 32-bit word from four bytes, least significant first. -/
def le32 : List Nat → Nat
  | [b0, b1, b2, b3] => b0 + 256 * b1 + 65536 * b2 + 16777216 * b3
  | _ => 0

/-- The first `n` little-endian words of a byte list. -/
def words : Nat → List Nat → List Nat
  | 0, _ => []
  | n + 1, bs => le32 (bs.take 4) :: words n (bs.drop 4)

/-- The compression function on one 64-byte block. -/
def block (st : St) (bs : List Nat) : St :=
  let m := words 16 bs
  let r := (List.range 64).foldl (step m) st
  { a := w32 (st.a + r.a), b := w32 (st.b + r.b),
    c := w32 (st.c + r.c), d := w32 (st.d + r.d) }

/-- The `n` low bytes of `x`, least significant first. -/
def bytesLE : Nat → Nat → List Nat
  | 0, _ => []
  | n + 1, x => x % 256 :: bytesLE n (x / 256)

/-- Padding: a `0x80` byte, zeros up to 56 modulo 64, and the length in bits
as 8 little-endian bytes. -/
def pad (msg : List Nat) : List Nat :=
  msg ++ [0x80] ++ List.replicate ((55 + 64 - msg.length % 64) % 64) 0 ++
    bytesLE 8 (8 * msg.length % 2 ^ 64)

/-- The compression function over `n` consecutive blocks. -/
def blocks : Nat → St → List Nat → St
  | 0, st, _ => st
  | n + 1, st, bs => blocks n (block st (bs.take 64)) (bs.drop 64)

/-- The initial chaining value. -/
def init : St :=
  { a := 0x67452301, b := 0xefcdab89, c := 0x98badcfe, d := 0x10325476 }

/-- Modelled from the spec: the hash of the md5 scenario is computed outside
the sources and named MD5; this is the 16-byte MD5 digest (RFC 1321) of a
byte string. -/
def digest (msg : List Nat) : List Nat :=
  let p := pad msg
  let r := blocks (p.length / 64) init p
  bytesLE 4 r.a ++ bytesLE 4 r.b ++ bytesLE 4 r.c ++ bytesLE 4 r.d

/-- The ASCII code of a lowercase hexadecimal digit. -/
def hexdigit (n : Nat) : Nat := if n < 10 then 48 + n else 87 + n

/-- Lowercase hexadecimal text of a byte string, two characters a byte. -/
def hex (bs : List Nat) : List Nat :=
  bs.flatMap fun b => [hexdigit (b / 16), hexdigit (b % 16)]

end MD5

/-! ## Sample environments

Concrete environments on which the scenarios are evaluated. -/

/-- Sample method numbers, pairwise different. -/
def sample_ops : HelperOps :=
  { CHERITEST_HELPER_OP_MD5 := 1,
    CHERITEST_HELPER_OP_ABORT := 2,
    CHERITEST_HELPER_OP_SPIN := 3,
    CHERITEST_HELPER_OP_CP2_BOUND := 4,
    CHERITEST_HELPER_OP_CP2_PERM := 5,
    CHERITEST_HELPER_OP_CP2_TAG := 6,
    CHERITEST_HELPER_OP_CP2_SEAL := 7,
    CHERITEST_HELPER_OP_CS_HELLOWORLD := 8,
    CHERITEST_HELPER_OP_CS_PUTS := 9,
    CHERITEST_HELPER_OP_CS_PUTCHAR := 10,
    CHERITEST_HELPER_OP_PRINTF := 11,
    CHERITEST_HELPER_OP_VM_RFAULT := 12,
    CHERITEST_HELPER_OP_VM_WFAULT := 13,
    CHERITEST_HELPER_OP_VM_XFAULT := 14,
    CHERITEST_HELPER_OP_SYSCALL := 15,
    CHERITEST_HELPER_OP_DIVZERO := 16,
    CHERITEST_HELPER_OP_SYSCAP := 17,
    CHERITEST_HELPER_OP_MALLOC := 18,
    CHERITEST_HELPER_OP_CS_CLOCK_GETTIME := 19,
    CHERITEST_HELPER_OP_FD_FSTAT_C := 20,
    CHERITEST_HELPER_OP_FD_LSEEK_C := 21,
    CHERITEST_HELPER_OP_FD_READ_C := 22,
    CHERITEST_HELPER_OP_FD_WRITE_C := 23,
    CHERITEST_HELPER_LIBCHERI_USERFN := 24,
    CHERITEST_HELPER_SAVE_CAPABILITY_IN_HEAP := 25,
    CHERITEST_USERFN_RETURNARG := 1000,
    CHERITEST_USERFN_GETSTACK := 1001,
    CHERITEST_USERFN_SETSTACK := 1002 }

/-- A tagged, unsealed capability for the whole 64-bit address space with
every permission. -/
def sample_root : Capability :=
  { tag := true, base := 0, length := 2 ^ 64, offset := 0,
    perms := {Perm.NON_EPHEMERAL, Perm.EXECUTE, Perm.LOAD, Perm.STORE,
              Perm.LOAD_CAP, Perm.STORE_CAP, Perm.STORE_EPHEM_CAP, Perm.SEAL,
              Perm.SETTYPE, Perm.USER0},
    sealed := false, otype := 0 }

/-- The code capability `cheritest_sandbox_setup` yields for the sandbox
`[4096, 8192)` under `sample_root`. -/
def sample_codecap : Capability :=
  { tag := true, base := 4096, length := 4096, offset := 0,
    perms := sample_root.perms ∩
      {Perm.EXECUTE, Perm.SEAL, Perm.STORE_EPHEM_CAP},
    sealed := true, otype := 0 }

/-- The data capability `cheritest_sandbox_setup` yields for the sandbox
`[4096, 8192)` under `sample_root`. -/
def sample_datacap : Capability :=
  { tag := true, base := 4096, length := 4096, offset := 0,
    perms := sample_root.perms ∩
      {Perm.LOAD, Perm.STORE, Perm.LOAD_CAP, Perm.STORE_CAP},
    sealed := true, otype := 0 }

/-- A sealed code/data pair standing for the system object. -/
def sample_system_object : cheri_object :=
  { co_codecap :=
      { tag := true, base := 65536, length := 4096, offset := 0,
        perms := {Perm.EXECUTE}, sealed := true, otype := 1 },
    co_datacap :=
      { tag := true, base := 69632, length := 4096, offset := 0,
        perms := {Perm.LOAD, Perm.STORE}, sealed := true, otype := 1 } }

/-- A sealed code/data pair standing for the `/dev/zero` object. -/
def sample_fd_object : cheri_object :=
  { co_codecap :=
      { tag := true, base := 131072, length := 4096, offset := 0,
        perms := {Perm.EXECUTE}, sealed := true, otype := 2 },
    co_datacap :=
      { tag := true, base := 135168, length := 64, offset := 0,
        perms := {Perm.LOAD, Perm.STORE}, sealed := true, otype := 2 } }

/-- A sample environment: `sigaction` succeeds, and the callee answers and
fills the md5 buffer as given. -/
def sample_env (answer : List Event → InvocationRequest → InvokeResult)
    (buf : List Nat) : Env :=
  { ops := sample_ops,
    sigaction := fun _ _ => true,
    cinvoke := answer,
    md5_buf := fun _ _ => buf,
    system_object := sample_system_object,
    zero_fd_object := sample_fd_object,
    default_cap := sample_root,
    md5_string_addr := 4096,
    md5_buf_addr := 8192,
    save_v_cap := derive sample_root 12288 8 sample_root.perms,
    userfn_getstack := 0,
    userfn_setstack := fun _ => 0 }

/-- The environment in which every invocation returns the sentinel -1. -/
def sentinel_env : Env :=
  sample_env (fun _ _ => InvokeResult.returned (-1)) []

/-- The environment in which every invocation returns 7. -/
def seven_env : Env :=
  sample_env (fun _ _ => InvokeResult.returned 7) []

/-- The sample environment whose callee relays to the registered handler. -/
def relay_env : Env :=
  sample_env (fun _ req => Libcheri.relay_callee seven_env req) []

/-- The sample environment whose callee leaves the hexadecimal MD5 digest of
the 11 bytes of the string in `buf` (the last byte of `buf` is left as it
was, here 65) and returns 0. -/
def md5_env : Env :=
  sample_env (fun _ _ => InvokeResult.returned 0)
    (MD5.hex (MD5.digest (Libcheri.string_to_md5.take 11)) ++ [65])




/-! ## Permission check, bounds check -/

/-- Modelled from the spec: `cheri_ccheckperm(cap, perm)` is a hardware check
from `machine/cheric.h` (missing).  The spec gives
`check_permission(cap, required) -> bool`, a pure predicate: the required
permissions are among the permissions of the capability. -/
def check_permission (cap : Capability) (required : Finset Perm) : Bool :=
  decide (required ⊆ cap.perms)

/-- Modelled from the spec: the bounds rule for a one-byte access through a
capability (enforced by the hardware, not by the sources): the capability is
tagged and the offset is below its length. -/
def in_bounds (cap : Capability) (offset : Nat) : Bool :=
  cap.tag && decide (offset < cap.length)

namespace CheritestC

/-- The capability `cp` of `cheritest_ccheck_user_fail`:
`cheri_ptrperm(&ch, sizeof(ch), 0)`. -/
def ccheck_user_fail_cap (root : Capability) (ch : Nat) : Capability :=
  cheri_ptrperm root ch 1 ∅

/-- C `cheritest_ccheck_user_fail`: the result of
`cheri_ccheckperm(cp, CHERI_PERM_USER0)`; `false` is the hardware
refusal. -/
def cheritest_ccheck_user_fail (root : Capability) (ch : Nat) : Bool :=
  check_permission (ccheck_user_fail_cap root ch) {Perm.USER0}

/-- The capability `cp` of `cheritest_ccheck_user_pass`:
`cheri_ptrperm(&ch, sizeof(ch), CHERI_PERM_USER0)`. -/
def ccheck_user_pass_cap (root : Capability) (ch : Nat) : Capability :=
  cheri_ptrperm root ch 1 {Perm.USER0}

/-- C `cheritest_ccheck_user_pass`: the result of
`cheri_ccheckperm(cp, CHERI_PERM_USER0)`. -/
def cheritest_ccheck_user_pass (root : Capability) (ch : Nat) : Bool :=
  check_permission (ccheck_user_pass_cap root ch) {Perm.USER0}

/-- C `#define ARRAY_LEN 2`. -/
def ARRAY_LEN : Nat := 2

/-- What `cheritest_overrun` did when it stopped: the stores `arrayp[i] = 0`
it performed, in order, each with its offset and whether it was within the
bounds of `arrayp`, and the value of `i` at that moment.  A store outside
the bounds is the last thing the function does. -/
structure OverrunRun where
  stores : List (Nat × Bool)
  i : Nat
  deriving DecidableEq, Repr

/-- The loop `for (i = 0; i < ARRAY_LEN; i++) arrayp[i] = 0;` of
`cheritest_overrun` from the value `i` of the counter on, followed by the
statement `arrayp[i] = 0;` after the loop. -/
def overrun_loop (arrayp : Capability) (i : Nat)
    (stores : List (Nat × Bool)) : OverrunRun :=
  if i < ARRAY_LEN then
    if in_bounds arrayp i then
      overrun_loop arrayp (i + 1) (stores ++ [(i, true)])
    else
      { stores := stores ++ [(i, false)], i := i }
  else
    { stores := stores ++ [(i, in_bounds arrayp i)], i := i }
termination_by ARRAY_LEN - i
decreasing_by omega

/-- C `cheritest_overrun`: `arrayp = cheri_ptr(array, sizeof(array))`, the
loop and the store after it. -/
def cheritest_overrun (root : Capability) (array : Nat) : OverrunRun :=
  overrun_loop (cheri_ptr root array ARRAY_LEN) 0 []

end CheritestC

/-- Whether an event arms the watchdog. -/
def is_alarm : Event → Bool
  | Event.alarm _ => true
  | _ => false

/-! ## The driver: set-up, teardown and `main` of `cheritest.c` -/

/-- The exit status `EX_OK` of `sysexits.h`. -/
def EX_OK : Nat := 0

/-- The exit status `EX_USAGE` of `sysexits.h`. -/
def EX_USAGE : Nat := 64

/-- The exit status `EX_OSFILE` of `sysexits.h`. -/
def EX_OSFILE : Nat := 72

/-- The scenario a command-line name stands for: the function `main` calls
for it, with its argument. -/
inductive Scenario
  | listcausereg
  | listprivregs
  | listregs
  | ccall_creturn
  | ccall_nop_creturn
  | ccheck_user_fail
  | ccheck_user_pass
  | creturn
  | copyregs
  | invoke_simple_op (op : Int)
  | invoke_fd_op (op : Int)
  | invoke_md5
  | overrun
  | revoke_fd
  | sleep
  deriving DecidableEq, Repr

/-- Actions of set-up, teardown and `main`, in program order.  `event` wraps
an action of a scenario; `scenario` marks the call `main` makes for a
name. -/
inductive Step
  | open_dev_zero (ok : Bool)
  | cheri_fd_new (ok : Bool)
  | sandbox_class_new (ok : Bool)
  | sandbox_object_new (ok : Bool)
  | method_declare (op : Int) (name : String)
  | user_register_fn
  | scenario (s : Scenario)
  | event (e : Event)
  | sandbox_object_destroy
  | sandbox_class_destroy
  | cheri_fd_destroy
  | close_fd
  | usage
  deriving DecidableEq

/-- How the process ends: with an exit status, or stopped from outside (a
fault that is not caught, an invocation that never comes back). -/
inductive Ended
  | exited (status : Nat)
  | killed
  deriving DecidableEq, Repr

/-- A run of `main`: its actions and its end. -/
structure MainRun where
  steps : List Step
  ended : Ended
  deriving DecidableEq

/-- What a call of `cheritest_libcheri_setup` comes to: a return value, or an
exit through `err`. -/
inductive SetupResult
  | returned (v : Int)
  | exited (status : Nat)
  deriving DecidableEq, Repr

/-- The answers of the system to the driver.  `open_ok`, `fd_new_ok`,
`class_new_ok`, `object_new_ok`: whether `open`, `cheri_fd_new`,
`sandbox_class_new`, `sandbox_object_new` succeed.  `seal_ops`: the sealing
primitives.  `sandbox_creturn`, `sandbox_nop_creturn`: start and end address
of the two assembly sandboxes.  `ccall_returns`: whether
`cheritest_ccall(codecap, datacap)` comes back.  `ch_addr`, `array_addr`:
addresses of the stack objects `ch` and `array`.  `register_scenario_returns`:
whether a scenario that only touches registers (or sleeps) comes back to
`main`. -/
structure Host where
  open_ok : Bool
  fd_new_ok : Bool
  class_new_ok : Bool
  object_new_ok : Bool
  seal_ops : SealOps
  sandbox_creturn : Nat × Nat
  sandbox_nop_creturn : Nat × Nat
  ccall_returns : Capability → Capability → Bool
  ch_addr : Nat
  array_addr : Nat
  register_scenario_returns : Scenario → Bool

/-! ### The registry, from the spec -/

/-- Errors of the registry named in the spec. -/
inductive RegistryError
  | LoadError
  | NotFound
  | ResourceExhausted
  | InUse
  deriving DecidableEq, Repr

/-- Modelled from the spec: the Sandbox Registry lives in libcheri, which is
not part of the sources.  It holds the live Classes and the live Objects,
each Object with the Class it was instantiated from. -/
structure Registry where
  classes : List Nat
  objects : List (Nat × Nat)
  deriving DecidableEq, Repr

/-- Modelled from the spec: `destroy(object)` of the registry (libcheri's
`sandbox_object_destroy`, missing) releases a live Object. -/
def Registry.destroy_object (r : Registry) (o : Nat) :
    Except RegistryError Registry :=
  if r.objects.any (fun p => p.1 == o) then
    Except.ok { r with objects := r.objects.filter (fun p => p.1 != o) }
  else
    Except.error RegistryError.NotFound

/-- Modelled from the spec: `destroy(class)` of the registry (libcheri's
`sandbox_class_destroy`, missing): "destroying a Class with live Objects is
an error (`InUse`) -- Objects must be destroyed first". -/
def Registry.destroy_class (r : Registry) (c : Nat) :
    Except RegistryError Registry :=
  if !r.classes.contains c then
    Except.error RegistryError.NotFound
  else if r.objects.any (fun p => p.2 == c) then
    Except.error RegistryError.InUse
  else
    Except.ok { r with classes := r.classes.filter (fun x => x != c) }

/-- The two globals `cheritest_classp` and `cheritest_objectp`, as handles
into the registry. -/
structure Handles where
  classp : Nat
  objectp : Nat
  deriving DecidableEq, Repr

/-- The effect of a sequence of driver actions on the registry: the two
destroy actions act on the Object and the Class the globals name, every
other action leaves the registry alone; the first error ends the run. -/
def Registry.teardown (g : Handles) :
    Registry → List Step → Except RegistryError Registry
  | r, [] => Except.ok r
  | r, Step.sandbox_object_destroy :: rest =>
      match r.destroy_object g.objectp with
      | Except.ok r1 => Registry.teardown g r1 rest
      | Except.error e => Except.error e
  | r, Step.sandbox_class_destroy :: rest =>
      match r.destroy_class g.classp with
      | Except.ok r1 => Registry.teardown g r1 rest
      | Except.error e => Except.error e
  | r, _ :: rest => Registry.teardown g r rest

namespace Libcheri

/-- The eighteen `sandbox_class_method_declare` calls of
`cheritest_libcheri_setup` in `cheritest_libcheri.c`, in order. -/
def declared_methods (ops : HelperOps) : List Step :=
  [Step.method_declare ops.CHERITEST_HELPER_OP_MD5 "md5",
   Step.method_declare ops.CHERITEST_HELPER_OP_ABORT "abort",
   Step.method_declare ops.CHERITEST_HELPER_OP_SPIN "spin",
   Step.method_declare ops.CHERITEST_HELPER_OP_CP2_BOUND "cp2_bound",
   Step.method_declare ops.CHERITEST_HELPER_OP_CP2_PERM "cp2_perm",
   Step.method_declare ops.CHERITEST_HELPER_OP_CP2_TAG "cp2_tag",
   Step.method_declare ops.CHERITEST_HELPER_OP_CP2_SEAL "cp2_seal",
   Step.method_declare ops.CHERITEST_HELPER_OP_CS_HELLOWORLD "helloworld",
   Step.method_declare ops.CHERITEST_HELPER_OP_CS_PUTS "puts",
   Step.method_declare ops.CHERITEST_HELPER_OP_PRINTF "printf",
   Step.method_declare ops.CHERITEST_HELPER_OP_VM_RFAULT "vm_rfault",
   Step.method_declare ops.CHERITEST_HELPER_OP_VM_WFAULT "vm_wfault",
   Step.method_declare ops.CHERITEST_HELPER_OP_VM_XFAULT "vm_xfault",
   Step.method_declare ops.CHERITEST_HELPER_OP_SYSCALL "syscall",
   Step.method_declare ops.CHERITEST_HELPER_OP_DIVZERO "divzero",
   Step.method_declare ops.CHERITEST_HELPER_OP_SYSCAP "syscap",
   Step.method_declare ops.CHERITEST_HELPER_OP_MALLOC "malloc",
   Step.method_declare ops.CHERITEST_HELPER_OP_CS_CLOCK_GETTIME
     "clock_gettime"]

/-- C `cheritest_libcheri_setup` of `cheritest_libcheri.c`: open and wrap
`/dev/zero` (exit through `err(EX_OSFILE, ...)` on failure), load the class
and instantiate the object (`return (-1)` on failure), declare the methods,
register the callback, `return (0)`. -/
def cheritest_libcheri_setup (host : Host) (ops : HelperOps) :
    List Step × SetupResult :=
  if host.open_ok = false then
    ([Step.open_dev_zero false], SetupResult.exited EX_OSFILE)
  else if host.fd_new_ok = false then
    ([Step.open_dev_zero true, Step.cheri_fd_new false],
      SetupResult.exited EX_OSFILE)
  else if host.class_new_ok = false then
    ([Step.open_dev_zero true, Step.cheri_fd_new true,
      Step.sandbox_class_new false], SetupResult.returned (-1))
  else if host.object_new_ok = false then
    ([Step.open_dev_zero true, Step.cheri_fd_new true,
      Step.sandbox_class_new true, Step.sandbox_object_new false],
      SetupResult.returned (-1))
  else
    ([Step.open_dev_zero true, Step.cheri_fd_new true,
      Step.sandbox_class_new true, Step.sandbox_object_new true] ++
      declared_methods ops ++ [Step.user_register_fn],
      SetupResult.returned 0)

/-- C `cheritest_libcheri_destroy` of `cheritest_libcheri.c`. -/
def cheritest_libcheri_destroy : List Step :=
  [Step.sandbox_object_destroy, Step.sandbox_class_destroy,
   Step.cheri_fd_destroy, Step.close_fd]

end Libcheri

namespace CheritestC

/-- The seventeen `sandbox_class_method_declare` calls of
`cheritest_libcheri_setup` in `cheritest.c`, in order. -/
def declared_methods (ops : HelperOps) : List Step :=
  [Step.method_declare ops.CHERITEST_HELPER_OP_MD5 "md5",
   Step.method_declare ops.CHERITEST_HELPER_OP_ABORT "abort",
   Step.method_declare ops.CHERITEST_HELPER_OP_SPIN "spin",
   Step.method_declare ops.CHERITEST_HELPER_OP_CP2_BOUND "cp2_bound",
   Step.method_declare ops.CHERITEST_HELPER_OP_CP2_PERM "cp2_perm",
   Step.method_declare ops.CHERITEST_HELPER_OP_CP2_TAG "cp2_tag",
   Step.method_declare ops.CHERITEST_HELPER_OP_CP2_SEAL "cp2_seal",
   Step.method_declare ops.CHERITEST_HELPER_OP_CS_HELLOWORLD "helloworld",
   Step.method_declare ops.CHERITEST_HELPER_OP_CS_PUTS "puts",
   Step.method_declare ops.CHERITEST_HELPER_OP_PRINTF "printf",
   Step.method_declare ops.CHERITEST_HELPER_OP_VM_RFAULT "vm_rfault",
   Step.method_declare ops.CHERITEST_HELPER_OP_VM_WFAULT "vm_wfault",
   Step.method_declare ops.CHERITEST_HELPER_OP_VM_XFAULT "vm_xfault",
   Step.method_declare ops.CHERITEST_HELPER_OP_SYSCALL "syscall",
   Step.method_declare ops.CHERITEST_HELPER_OP_DIVZERO "divzero",
   Step.method_declare ops.CHERITEST_HELPER_OP_SYSCAP "syscap",
   Step.method_declare ops.CHERITEST_HELPER_OP_MALLOC "malloc"]

/-- C `cheritest_libcheri_setup` of `cheritest.c`: load the class and
instantiate the object (`return (-1)` on failure), declare the methods,
`return (0)`. -/
def cheritest_libcheri_setup (host : Host) (ops : HelperOps) :
    List Step × Int :=
  if host.class_new_ok = false then
    ([Step.sandbox_class_new false], -1)
  else if host.object_new_ok = false then
    ([Step.sandbox_class_new true, Step.sandbox_object_new false], -1)
  else
    ([Step.sandbox_class_new true, Step.sandbox_object_new true] ++
      declared_methods ops, 0)

/-- C `cheritest_libcheri_destroy` of `cheritest.c`. -/
def cheritest_libcheri_destroy : List Step :=
  [Step.sandbox_object_destroy, Step.sandbox_class_destroy]

/-- The lines `usage` writes to `stderr`, in order, before
`exit(EX_USAGE)`. -/
def usage_lines : List String :=
  ["cheritest creturn\n",
   "cheritest ccall_creturn\n",
   "cheritest ccall_nop_creturn\n",
   "cheritest ccheck_user_fail\n",
   "cheritest ccheck_user_pass\n",
   "cheritest copyregs\n",
   "cheritest invoke_abort\n",
   "cheritest invoke_cp2_bound\n",
   "cheritest invoke_cp2_perm\n",
   "cheritest invoke_cp2_seal\n",
   "cheritest invoke_cp2_tag\n",
   "cheritest invoke_divzero\n",
   "cheritest invoke_fd_fstat_c\n",
   "cheritest invoke_fd_lseek_c\n",
   "cheritest invoke_fd_read_c\n",
   "cheritest invoke_fd_write_c\n",
   "cheritest invoke_helloworld\n",
   "cheritest invoke_md5\n",
   "cheritest invoke_malloc\n",
   "cheritest invoke_printf\n",
   "cheritest invoke_putchar\n",
   "cheritest invoke_puts\n",
   "cheritest invoke_spin\n",
   "cheritest invoke_syscall\n",
   "cheritest invoke_syscap\n",
   "cheritest invoke_vm_rfault\n",
   "cheritest invoke_vm_wfault\n",
   "cheritest invoke_vm_xfault\n",
   "cheritest listcausereg\n",
   "cheritest listprivregs\n",
   "cheritest listregs\n",
   "cheritest overrun\n",
   "cheritest revoke_fd\n",
   "cheritest sleep\n"]

/-- The scenario names `usage` advertises: each line without the leading
program name and blank (10 characters) and without the newline. -/
def usage_names : List String :=
  usage_lines.map fun l => (l.drop 10).dropRight 1

/-- The chain of `strcmp(argv[i], "...") == 0` tests in the loop of `main`,
in source order; `none` is the final `else usage();`. -/
def dispatch (ops : HelperOps) (arg : String) : Option Scenario :=
  if arg = "listcausereg" then some Scenario.listcausereg
  else if arg = "listprivregs" then some Scenario.listprivregs
  else if arg = "listregs" then some Scenario.listregs
  else if arg = "ccall_creturn" then some Scenario.ccall_creturn
  else if arg = "ccall_nop_creturn" then some Scenario.ccall_nop_creturn
  else if arg = "ccheck_user_fail" then some Scenario.ccheck_user_fail
  else if arg = "ccheck_user_pass" then some Scenario.ccheck_user_pass
  else if arg = "creturn" then some Scenario.creturn
  else if arg = "copyregs" then some Scenario.copyregs
  else if arg = "invoke_abort" then
    some (Scenario.invoke_simple_op ops.CHERITEST_HELPER_OP_ABORT)
  else if arg = "invoke_cp2_bound" then
    some (Scenario.invoke_simple_op ops.CHERITEST_HELPER_OP_CP2_BOUND)
  else if arg = "invoke_cp2_perm" then
    some (Scenario.invoke_simple_op ops.CHERITEST_HELPER_OP_CP2_PERM)
  else if arg = "invoke_cp2_tag" then
    some (Scenario.invoke_simple_op ops.CHERITEST_HELPER_OP_CP2_TAG)
  else if arg = "invoke_cp2_seal" then
    some (Scenario.invoke_simple_op ops.CHERITEST_HELPER_OP_CP2_SEAL)
  else if arg = "invoke_divzero" then
    some (Scenario.invoke_simple_op ops.CHERITEST_HELPER_OP_DIVZERO)
  else if arg = "invoke_fd_fstat_c" then
    some (Scenario.invoke_fd_op ops.CHERITEST_HELPER_OP_FD_FSTAT_C)
  else if arg = "invoke_fd_lseek_c" then
    some (Scenario.invoke_fd_op ops.CHERITEST_HELPER_OP_FD_LSEEK_C)
  else if arg = "invoke_fd_read_c" then
    some (Scenario.invoke_fd_op ops.CHERITEST_HELPER_OP_FD_READ_C)
  else if arg = "invoke_fd_write_c" then
    some (Scenario.invoke_fd_op ops.CHERITEST_HELPER_OP_FD_WRITE_C)
  else if arg = "invoke_helloworld" then
    some (Scenario.invoke_simple_op ops.CHERITEST_HELPER_OP_CS_HELLOWORLD)
  else if arg = "invoke_md5" then some Scenario.invoke_md5
  else if arg = "invoke_malloc" then
    some (Scenario.invoke_simple_op ops.CHERITEST_HELPER_OP_MALLOC)
  else if arg = "invoke_printf" then
    some (Scenario.invoke_simple_op ops.CHERITEST_HELPER_OP_PRINTF)
  else if arg = "invoke_putchar" then
    some (Scenario.invoke_simple_op ops.CHERITEST_HELPER_OP_CS_PUTCHAR)
  else if arg = "invoke_puts" then
    some (Scenario.invoke_simple_op ops.CHERITEST_HELPER_OP_CS_PUTS)
  else if arg = "invoke_spin" then
    some (Scenario.invoke_simple_op ops.CHERITEST_HELPER_OP_SPIN)
  else if arg = "invoke_syscall" then
    some (Scenario.invoke_simple_op ops.CHERITEST_HELPER_OP_SYSCALL)
  else if arg = "invoke_syscap" then
    some (Scenario.invoke_simple_op ops.CHERITEST_HELPER_OP_SYSCAP)
  else if arg = "invoke_vm_rfault" then
    some (Scenario.invoke_simple_op ops.CHERITEST_HELPER_OP_VM_RFAULT)
  else if arg = "invoke_vm_wfault" then
    some (Scenario.invoke_simple_op ops.CHERITEST_HELPER_OP_VM_WFAULT)
  else if arg = "invoke_vm_xfault" then
    some (Scenario.invoke_simple_op ops.CHERITEST_HELPER_OP_VM_XFAULT)
  else if arg = "overrun" then some Scenario.overrun
  else if arg = "revoke_fd" then some Scenario.revoke_fd
  else if arg = "sleep" then some Scenario.sleep
  else none

/-- C `cheritest_invoke_md5` of `cheritest.c`: the invocation, a `printf` of
`(uintmax_t)v` (the 64-bit register read as unsigned: `v` modulo `2^64`),
`buf[32] = 0`, a `printf` of the string and of `buf`; the function returns
to `main`. -/
def cheritest_invoke_md5 (env : Env) (h : List Event) : Run :=
  match sandbox_object_cinvoke env h (md5_request env) with
  | (h1, InvokeResult.returned v) =>
      let buf := (env.md5_buf h (md5_request env)).set 32 0
      { trace := h1 ++
          [Event.printf "%s: sandbox returned %ju\n"
            [FmtArg.str "cheritest_invoke_md5", FmtArg.reg (v % 2 ^ 64)],
           Event.printf "MD5 checksum of '%s' is %s\n"
            [FmtArg.str "hello world",
             FmtArg.str (String.mk ((buf.take (strlen buf)).map
               Char.ofNat))]],
        outcome := Outcome.returns }
  | (h1, InvokeResult.noreturn) =>
      { trace := h1, outcome := Outcome.noreturn }

/-- The call `main` makes for a scenario, from the history `h` of the
actions on the sandbox object.  The outcome is `returns` when the function
comes back to `main`; `noreturn` stands for any way of not coming back (an
invocation that does not return, a refused permission check, a store
outside bounds, a refused seal).  Register dumps are not recorded. -/
def run_scenario (env : Env) (host : Host) (s : Scenario) (h : List Event) :
    Run :=
  match s with
  | Scenario.invoke_simple_op op => cheritest_invoke_simple_op env op h
  | Scenario.invoke_fd_op op => cheritest_invoke_fd_op env op h
  | Scenario.invoke_md5 => cheritest_invoke_md5 env h
  | Scenario.revoke_fd => cheritest_revoke_fd env h
  | Scenario.ccheck_user_fail =>
      { trace := h,
        outcome :=
          if cheritest_ccheck_user_fail env.default_cap host.ch_addr then
            Outcome.returns
          else Outcome.noreturn }
  | Scenario.ccheck_user_pass =>
      { trace := h,
        outcome :=
          if cheritest_ccheck_user_pass env.default_cap host.ch_addr then
            Outcome.returns
          else Outcome.noreturn }
  | Scenario.overrun =>
      { trace := h,
        outcome :=
          if (cheritest_overrun env.default_cap host.array_addr).stores.all
              (fun st => st.2) then
            Outcome.returns
          else Outcome.noreturn }
  | Scenario.ccall_creturn =>
      { trace := h,
        outcome :=
          match cheritest_sandbox_setup host.seal_ops env.default_cap
              host.sandbox_creturn.1 host.sandbox_creturn.2 0 with
          | some (codecap, datacap) =>
              if host.ccall_returns codecap datacap then Outcome.returns
              else Outcome.noreturn
          | none => Outcome.noreturn }
  | Scenario.ccall_nop_creturn =>
      { trace := h,
        outcome :=
          match cheritest_sandbox_setup host.seal_ops env.default_cap
              host.sandbox_nop_creturn.1 host.sandbox_nop_creturn.2 0 with
          | some (codecap, datacap) =>
              if host.ccall_returns codecap datacap then Outcome.returns
              else Outcome.noreturn
          | none => Outcome.noreturn }
  | other =>
      { trace := h,
        outcome :=
          if host.register_scenario_returns other then Outcome.returns
          else Outcome.noreturn }

/-- The loop `for (i = 0; i < argc; i++)` of `main` over the remaining
arguments, followed by `cheritest_libcheri_destroy(); exit(EX_OK);`.
`steps` are the actions so far, `h` is the history of the actions on the
sandbox object. -/
def main_loop (env : Env) (host : Host) :
    List String → List Step → List Event → MainRun
  | [], steps, _ =>
      { steps := steps ++ cheritest_libcheri_destroy,
        ended := Ended.exited EX_OK }
  | arg :: rest, steps, h =>
      match dispatch env.ops arg with
      | none =>
          { steps := steps ++ [Step.usage], ended := Ended.exited EX_USAGE }
      | some s =>
          match run_scenario env host s h with
          | { trace := h1, outcome := Outcome.returns } =>
              main_loop env host rest
                (steps ++ Step.scenario s ::
                  (h1.drop h.length).map Step.event) h1
          | { trace := h1, outcome := _ } =>
              { steps := steps ++ Step.scenario s ::
                  (h1.drop h.length).map Step.event,
                ended := Ended.killed }

/-- C `main` of `cheritest.c`.  `parsed` is the outcome of the `getopt`
loop: `none` when `getopt` met an option (every option leads to `usage`),
otherwise the arguments left after the options.  The value
`cheritest_libcheri_setup()` returns is not used. -/
def main (env : Env) (host : Host) (parsed : Option (List String)) :
    MainRun :=
  match parsed with
  | none => { steps := [Step.usage], ended := Ended.exited EX_USAGE }
  | some [] => { steps := [Step.usage], ended := Ended.exited EX_USAGE }
  | some (arg :: rest) =>
      if host.open_ok = false then
        { steps := [Step.open_dev_zero false],
          ended := Ended.exited EX_OSFILE }
      else if host.fd_new_ok = false then
        { steps := [Step.open_dev_zero true, Step.cheri_fd_new false],
          ended := Ended.exited EX_OSFILE }
      else
        main_loop env host (arg :: rest)
          ([Step.open_dev_zero true, Step.cheri_fd_new true] ++
            (cheritest_libcheri_setup host env.ops).1) []

end CheritestC

/-- A host on which everything succeeds and every scenario comes back. -/
def sample_host : Host :=
  { open_ok := true,
    fd_new_ok := true,
    class_new_ok := true,
    object_new_ok := true,
    seal_ops := authoritySealOps,
    sandbox_creturn := (16384, 16392),
    sandbox_nop_creturn := (16400, 16412),
    ccall_returns := fun _ _ => true,
    ch_addr := 20480,
    array_addr := 20488,
    register_scenario_returns := fun _ => true }

/-- The sample host, except that loading the class fails. -/
def no_class_host : Host :=
  { sample_host with class_new_ok := false }

/-- The sample host, except that `/dev/zero` cannot be opened. -/
def no_dev_zero_host : Host :=
  { sample_host with open_ok := false }

/-- The registry after a successful set-up from the empty registry: one
Class (handle 1) and one Object of it (handle 1). -/
def sample_registry : Registry :=
  { classes := [1], objects := [(1, 1)] }

/-- The globals after that set-up. -/
def sample_handles : Handles :=
  { classp := 1, objectp := 1 }

/-! ## Theorems -/

namespace Libcheri

/-! ### Fault scenarios -/

theorem catch_body_run (env : Env) (op : Int) (h : List Event) :
    catch_body env op h =
      { trace := h ++ [Event.alarm 10,
          Event.cinvoke (simple_request env op)
            (env.cinvoke (h ++ [Event.alarm 10]) (simple_request env op))],
        outcome :=
          match env.cinvoke (h ++ [Event.alarm 10]) (simple_request env op) with
          | InvokeResult.returned _ => Outcome.failure "invoke returned" []
          | InvokeResult.noreturn => Outcome.noreturn } := by
  unfold catch_body test_sandbox_op sandbox_object_cinvoke
  cases env.cinvoke (h ++ [Event.alarm 10]) (simple_request env op) <;> simp

theorem catch_scenario_eq (K : FaultKind) (env : Env) (h : List Event) :
    catch_scenario K env h = catch_body env (K.helper_op env.ops) h := by
  cases K <;> rfl

theorem nocatch_scenario_eq (K : FaultKind) (env : Env) (h : List Event) :
    nocatch_scenario K env h =
      nocatch_body env (expected_signal K) (K.helper_op env.ops) h := by
  cases K <;> rfl

theorem nocatch_body_failed_reset (env : Env) (sig : Signal) (op : Int)
    (h : List Event) (hs : env.sigaction h sig = false) :
    nocatch_body env sig op h =
      { trace := h ++ [Event.sigaction_dfl sig false],
        outcome := Outcome.failure "clearing handler for sig %d"
          [FmtArg.sig sig] } := by
  simp [nocatch_body, signal_handler_clear, hs]

theorem nocatch_body_run (env : Env) (sig : Signal) (op : Int)
    (h : List Event) (hs : env.sigaction h sig = true) :
    nocatch_body env sig op h =
      { trace := h ++ [Event.sigaction_dfl sig true, Event.alarm 10,
          Event.cinvoke (simple_request env op)
            (env.cinvoke (h ++ [Event.sigaction_dfl sig true, Event.alarm 10])
              (simple_request env op))],
        outcome :=
          match env.cinvoke (h ++ [Event.sigaction_dfl sig true, Event.alarm 10])
              (simple_request env op) with
          | InvokeResult.returned v =>
              if v = -1 then Outcome.success
              else Outcome.failure "invoke returned %d (expected %d)"
                [FmtArg.reg v, FmtArg.reg (-1)]
          | InvokeResult.noreturn => Outcome.noreturn } := by
  simp only [nocatch_body, signal_handler_clear, hs, test_sandbox_op,
    sandbox_object_cinvoke, List.append_assoc, List.singleton_append,
    List.cons_append, List.nil_append]
  cases hr : env.cinvoke (h ++ [Event.sigaction_dfl sig true, Event.alarm 10])
      (simple_request env op) with
  | noreturn => simp
  | returned v =>
      by_cases hv : v = -1
      · simp [hv]
      · simp [hv]

/-- C1 (counterexample): in the environment where every invocation returns
the sentinel -1, the invocation of `test_sandbox_cp2_bound_catch` returns -1
and the scenario reports the failure "invoke returned", not success. -/
theorem catch_sentinel_reports_failure :
    fault_invocation FaultKind.cp2_bound sentinel_env [] =
        InvokeResult.returned (-1) ∧
      (test_sandbox_cp2_bound_catch sentinel_env []).outcome =
        Outcome.failure "invoke returned" [] ∧
      (test_sandbox_cp2_bound_catch sentinel_env []).outcome ≠
        Outcome.success := by
  refine ⟨rfl, ?_, ?_⟩
  · simp [test_sandbox_cp2_bound_catch, catch_body_run, sentinel_env,
      sample_env]
  · simp [test_sandbox_cp2_bound_catch, catch_body_run, sentinel_env,
      sample_env]

/-- C1 (amended): for each fault kind K, `test_sandbox_K_catch` arms the
alarm, issues the invocation of the helper operation for K and, whenever the
invocation returns (with -1 or with any other value), reports the failure
"invoke returned"; when the invocation does not return the scenario reports
nothing; in no case does it report success. -/
theorem catch_scenario_fails_on_return (K : FaultKind) (env : Env)
    (h : List Event) :
    (catch_scenario K env h).trace =
        h ++ [Event.alarm 10,
          Event.cinvoke (simple_request env (K.helper_op env.ops))
            (fault_invocation K env h)] ∧
      (catch_scenario K env h).outcome =
        (match fault_invocation K env h with
          | InvokeResult.returned _ => Outcome.failure "invoke returned" []
          | InvokeResult.noreturn => Outcome.noreturn) ∧
      (catch_scenario K env h).outcome ≠ Outcome.success := by
  rw [catch_scenario_eq, catch_body_run]
  refine ⟨rfl, rfl, ?_⟩
  show (match fault_invocation K env h with
          | InvokeResult.returned _ => Outcome.failure "invoke returned" []
          | InvokeResult.noreturn => Outcome.noreturn) ≠ Outcome.success
  cases fault_invocation K env h <;> simp

/-- C2 (counterexample): in the environment where every invocation returns
the sentinel -1, the invocation of `test_sandbox_cp2_bound_nocatch` returns
-1 to the caller and the scenario then reports success. -/
theorem nocatch_sentinel_reports_success :
    fault_invocation FaultKind.cp2_bound sentinel_env
        [Event.sigaction_dfl Signal.SIGPROT true] =
        InvokeResult.returned (-1) ∧
      (test_sandbox_cp2_bound_nocatch sentinel_env []).outcome =
        Outcome.success := by
  refine ⟨rfl, ?_⟩
  have hs : sentinel_env.sigaction [] Signal.SIGPROT = true := rfl
  rw [test_sandbox_cp2_bound_nocatch, nocatch_body_run _ _ _ _ hs]
  simp [sentinel_env, sample_env]

/-- C2 (amended): for each fault kind K, `test_sandbox_K_nocatch` reports
success exactly when the signal reset succeeded and the invocation returned
the sentinel -1 to the caller; it never reports success after any other
returned value, and it ends without a report exactly when the invocation
does not return. -/
theorem nocatch_success_iff_sentinel (K : FaultKind) (env : Env)
    (h : List Event) :
    ((nocatch_scenario K env h).outcome = Outcome.success ↔
        (env.sigaction h (expected_signal K) = true ∧
          fault_invocation K env
            (h ++ [Event.sigaction_dfl (expected_signal K) true]) =
            InvokeResult.returned (-1))) ∧
      ((nocatch_scenario K env h).outcome = Outcome.noreturn ↔
        (env.sigaction h (expected_signal K) = true ∧
          fault_invocation K env
            (h ++ [Event.sigaction_dfl (expected_signal K) true]) =
            InvokeResult.noreturn)) := by
  rw [nocatch_scenario_eq]
  cases hs : env.sigaction h (expected_signal K) with
  | false => rw [nocatch_body_failed_reset _ _ _ _ hs]; simp
  | true =>
      rw [nocatch_body_run _ _ _ _ hs]
      simp only [fault_invocation, List.append_assoc, List.singleton_append,
        true_and]
      cases hr : env.cinvoke
          (h ++ [Event.sigaction_dfl (expected_signal K) true, Event.alarm 10])
          (simple_request env (K.helper_op env.ops)) with
      | noreturn => simp
      | returned v =>
          by_cases hv : v = -1
          · simp [hv]
          · simp [hv]

/-- C3: for each of the eight fault operations K and every register value v
the invocation returns, `test_sandbox_K_nocatch` resets the signal, arms the
alarm and issues the invocation in this order and does nothing after it but
report: success if and only if v = -1, and otherwise the failure
"invoke returned %d (expected %d)" with the arguments v and -1. -/
theorem nocatch_returned_value (K : FaultKind) (env : Env) (h : List Event)
    (v : Int) (hs : env.sigaction h (expected_signal K) = true)
    (hv : fault_invocation K env
        (h ++ [Event.sigaction_dfl (expected_signal K) true]) =
        InvokeResult.returned v) :
    nocatch_scenario K env h =
        { trace := h ++ [Event.sigaction_dfl (expected_signal K) true,
            Event.alarm 10,
            Event.cinvoke (simple_request env (K.helper_op env.ops))
              (InvokeResult.returned v)],
          outcome :=
            if v = -1 then Outcome.success
            else Outcome.failure "invoke returned %d (expected %d)"
              [FmtArg.reg v, FmtArg.reg (-1)] } ∧
      ((nocatch_scenario K env h).outcome = Outcome.success ↔ v = -1) := by
  simp only [fault_invocation, List.append_assoc, List.singleton_append]
    at hv
  rw [nocatch_scenario_eq, nocatch_body_run _ _ _ _ hs, hv]
  refine ⟨rfl, ?_⟩
  by_cases h1 : v = -1
  · simp [h1]
  · simp [h1]

/-- C3 (witness): divide-by-zero with a callee that returns 7. -/
theorem nocatch_returned_value_witness :
    seven_env.sigaction [] (expected_signal FaultKind.divzero) = true ∧
      fault_invocation FaultKind.divzero seven_env
        ([] ++ [Event.sigaction_dfl (expected_signal FaultKind.divzero) true])
        = InvokeResult.returned 7 ∧
      (nocatch_scenario FaultKind.divzero seven_env [] =
        { trace := [] ++ [Event.sigaction_dfl
              (expected_signal FaultKind.divzero) true,
            Event.alarm 10,
            Event.cinvoke
              (simple_request seven_env
                (FaultKind.divzero.helper_op seven_env.ops))
              (InvokeResult.returned 7)],
          outcome :=
            if (7 : Int) = -1 then Outcome.success
            else Outcome.failure "invoke returned %d (expected %d)"
              [FmtArg.reg 7, FmtArg.reg (-1)] } ∧
        ((nocatch_scenario FaultKind.divzero seven_env []).outcome =
          Outcome.success ↔ (7 : Int) = -1)) :=
  ⟨rfl, rfl, nocatch_returned_value FaultKind.divzero seven_env [] 7 rfl rfl⟩

/-- C4: whatever the environment answers, each `test_sandbox_K_nocatch`
issues exactly one reset of a signal disposition, and it is the reset of the
signal associated with its fault kind: SIGPROT for cp2_bound, cp2_perm,
cp2_tag and cp2_seal, SIGEMT for divzero, SIGSEGV for vm_rfault and
vm_wfault, SIGBUS for vm_xfault. -/
theorem nocatch_resets_expected_signal (K : FaultKind) (env : Env)
    (h : List Event) :
    ((nocatch_scenario K env h).trace.drop h.length).filterMap reset_signal =
      [expected_signal K] := by
  rw [nocatch_scenario_eq]
  cases hs : env.sigaction h (expected_signal K) with
  | false =>
      rw [nocatch_body_failed_reset _ _ _ _ hs]
      simp [reset_signal]
  | true =>
      rw [nocatch_body_run _ _ _ _ hs]
      simp [reset_signal]

end Libcheri

/-! ### Revocation and the file-descriptor operations -/

theorem handler_returnarg (env : Env) (arg a2 a3 a4 a5 a6 a7 : Int)
    (so : cheri_object) (c3 c4 c5 c6 c7 : Capability) :
    Libcheri.cheritest_libcheri_userfn_handler env
        env.ops.CHERITEST_USERFN_RETURNARG arg a2 a3 a4 a5 a6 a7 so
        c3 c4 c5 c6 c7 = Libcheri.HandlerResult.value arg := by
  simp [Libcheri.cheritest_libcheri_userfn_handler]

theorem relay_userfn_request (env : Env) (i : Int) :
    Libcheri.relay_callee env (Libcheri.userfn_request env i) =
      InvokeResult.returned i := by
  simp [Libcheri.relay_callee, Libcheri.userfn_request, handler_returnarg]

theorem userfn_loop_relay (env : Env)
    (hrelay : ∀ h1 req,
      req.methodnum = env.ops.CHERITEST_HELPER_LIBCHERI_USERFN →
      env.cinvoke h1 req = Libcheri.relay_callee env req) :
    ∀ (n : Nat) (h : List Event), n ≤ 10 →
      Libcheri.userfn_loop env ((10 - n : Nat) : Int) h =
        { trace := h ++ (List.range' (10 - n) n).map (fun i : Nat =>
            Event.cinvoke (Libcheri.userfn_request env (i : Int))
              (InvokeResult.returned (i : Int))),
          outcome := Outcome.success } := by
  intro n
  induction n with
  | zero =>
      intro h _
      rw [Libcheri.userfn_loop]
      simp
  | succ n ih =>
      intro h hn
      rw [Libcheri.userfn_loop]
      have hlt : (((10 - (n + 1) : Nat) : Int)) < 10 := by omega
      have hcall : env.cinvoke h
          (Libcheri.userfn_request env ((10 - (n + 1) : Nat) : Int)) =
          InvokeResult.returned ((10 - (n + 1) : Nat) : Int) := by
        rw [hrelay h _ rfl, relay_userfn_request]
      have hnext : (((10 - (n + 1) : Nat) : Int)) + 1 = ((10 - n : Nat) : Int) := by
        omega
      have hr : 10 - n = (10 - (n + 1)) + 1 := by omega
      simp only [hlt, if_true, sandbox_object_cinvoke, hcall, ne_eq,
        not_true_eq_false, if_false, hnext]
      rw [ih _ (by omega)]
      rw [List.range'_succ, ← hr]
      simp

/-- C6: for every register value `arg` and whatever the other parameters are,
`cheritest_libcheri_userfn_handler(CHERITEST_USERFN_RETURNARG, arg, ...)`
returns exactly `arg`; hence, with a callee that relays the method and its
argument to the handler, `cheritest_libcheri_userfn` issues exactly ten
invocations, the one for i returns i (i = 0..9), and the scenario reports
success. -/
theorem userfn_roundtrip (env : Env) (h : List Event)
    (hrelay : ∀ h1 req,
      req.methodnum = env.ops.CHERITEST_HELPER_LIBCHERI_USERFN →
      env.cinvoke h1 req = Libcheri.relay_callee env req) :
    (∀ (arg a2 a3 a4 a5 a6 a7 : Int) (so : cheri_object)
        (c3 c4 c5 c6 c7 : Capability),
        Libcheri.cheritest_libcheri_userfn_handler env
          env.ops.CHERITEST_USERFN_RETURNARG arg a2 a3 a4 a5 a6 a7 so
          c3 c4 c5 c6 c7 = Libcheri.HandlerResult.value arg) ∧
      Libcheri.cheritest_libcheri_userfn env h =
        { trace := h ++ (List.range 10).map (fun i : Nat =>
            Event.cinvoke (Libcheri.userfn_request env (i : Int))
              (InvokeResult.returned (i : Int))),
          outcome := Outcome.success } := by
  refine ⟨handler_returnarg env, ?_⟩
  have key := userfn_loop_relay env hrelay 10 h (le_refl 10)
  simpa [Libcheri.cheritest_libcheri_userfn, List.range_eq_range'] using key

theorem relay_env_relays (h1 : List Event) (req : InvocationRequest) :
    relay_env.cinvoke h1 req = Libcheri.relay_callee relay_env req := rfl

/-- C6 (witness): the sample environment whose callee relays to the handler,
started from the empty history. -/
theorem userfn_roundtrip_witness :
    (∀ h1 req,
      req.methodnum = relay_env.ops.CHERITEST_HELPER_LIBCHERI_USERFN →
      relay_env.cinvoke h1 req = Libcheri.relay_callee relay_env req) ∧
    ((∀ (arg a2 a3 a4 a5 a6 a7 : Int) (so : cheri_object)
        (c3 c4 c5 c6 c7 : Capability),
        Libcheri.cheritest_libcheri_userfn_handler relay_env
          relay_env.ops.CHERITEST_USERFN_RETURNARG arg a2 a3 a4 a5 a6 a7 so
          c3 c4 c5 c6 c7 = Libcheri.HandlerResult.value arg) ∧
      Libcheri.cheritest_libcheri_userfn relay_env [] =
        { trace := [] ++ (List.range 10).map (fun i : Nat =>
            Event.cinvoke (Libcheri.userfn_request relay_env (i : Int))
              (InvokeResult.returned (i : Int))),
          outcome := Outcome.success }) :=
  ⟨fun h1 req _ => relay_env_relays h1 req,
    userfn_roundtrip relay_env [] (fun h1 req _ => relay_env_relays h1 req)⟩

/-! ### The md5 scenario -/

theorem strcmp_literal (l : List Nat) (hl : ∀ x ∈ l, x ≠ 0) :
    ∀ a : List Nat,
      strcmp a (l ++ [0]) = 0 ↔ (a.take l.length = l ∧ a.getD l.length 0 = 0) := by
  induction l with
  | nil =>
      intro a
      cases a with
      | nil => simp [strcmp]
      | cons y ys =>
          by_cases hy : y = 0
          · simp [strcmp, hy]
          · simp [strcmp, hy]
  | cons x l ih =>
      intro a
      have hx : x ≠ 0 := hl x (List.mem_cons_self x l)
      have hl2 : ∀ z ∈ l, z ≠ 0 := fun z hz => hl z (List.mem_cons_of_mem x hz)
      cases a with
      | nil => simp [strcmp, hx]
      | cons y ys =>
          by_cases hyx : y = x
          · subst hyx
            simp [strcmp, hx, ih hl2 ys]
          · simp [strcmp, hyx]
            omega

theorem string_md5_check (out : List Nat) (hlen : out.length = 33) :
    strcmp (out.set 32 0) Libcheri.string_md5 = 0 ↔
      out.take 32 = MD5.hex (MD5.digest (Libcheri.string_to_md5.take 11)) := by
  have hd : MD5.hex (MD5.digest (Libcheri.string_to_md5.take 11)) =
      "5eb63bbbe01eeed093cb22bb8f5acdc3".toList.map Char.toNat := by
    set_option maxRecDepth 1000000 in decide
  have hnz : ∀ x ∈ "5eb63bbbe01eeed093cb22bb8f5acdc3".toList.map Char.toNat,
      x ≠ 0 := by decide
  have hl32 : ("5eb63bbbe01eeed093cb22bb8f5acdc3".toList.map Char.toNat).length
      = 32 := by decide
  rw [hd, Libcheri.string_md5, c_string, strcmp_literal _ hnz, hl32]
  have h1 : (out.set 32 0).take 32 = out.take 32 := by
    rw [List.set_take, List.set_eq_of_length_le (by simp)]
  have h2 : (out.set 32 0).getD 32 0 = 0 := by
    simp [List.getD_eq_getElem?_getD, List.getElem?_set, hlen]
  rw [h1, h2]
  simp

/-- C7: the string has 11 bytes before its NUL and that length is what the
request carries; the constant `string_md5` is the MD5 digest of those 11
bytes written as 32 lowercase hexadecimal characters, followed by a NUL; and
when the invocation returns, `cheritest_invoke_md5` reports success if the
first 32 bytes the callee left in `buf` are that digest and reports the
failure "Incorrect MD5 checksum returned from sandbox" for any other
content. -/
theorem md5_digest_check (env : Env) (h : List Event) (v : Int)
    (hlen : (env.md5_buf h (Libcheri.md5_request env)).length = 33)
    (hret : env.cinvoke h (Libcheri.md5_request env) =
      InvokeResult.returned v) :
    strlen Libcheri.string_to_md5 = 11 ∧
      (Libcheri.md5_request env).scalars = [0, 11, 0, 0, 0, 0, 0] ∧
      MD5.hex (MD5.digest (Libcheri.string_to_md5.take 11)) ++ [0] =
        Libcheri.string_md5 ∧
      (MD5.hex (MD5.digest (Libcheri.string_to_md5.take 11))).length = 32 ∧
      (∀ c ∈ MD5.hex (MD5.digest (Libcheri.string_to_md5.take 11)),
        c ∈ "0123456789abcdef".toList.map Char.toNat) ∧
      (Libcheri.cheritest_invoke_md5 env h).outcome =
        (if (env.md5_buf h (Libcheri.md5_request env)).take 32 =
            MD5.hex (MD5.digest (Libcheri.string_to_md5.take 11)) then
          Outcome.success
        else
          Outcome.failure "Incorrect MD5 checksum returned from sandbox"
            []) := by
  have h11 : strlen Libcheri.string_to_md5 = 11 := by decide
  refine ⟨h11, by simp [Libcheri.md5_request, h11], ?_, ?_, ?_, ?_⟩
  · set_option maxRecDepth 1000000 in decide
  · set_option maxRecDepth 1000000 in decide
  · set_option maxRecDepth 1000000 in decide
  · unfold Libcheri.cheritest_invoke_md5 sandbox_object_cinvoke
    simp only [hret]
    by_cases hc : (env.md5_buf h (Libcheri.md5_request env)).take 32 =
        MD5.hex (MD5.digest (Libcheri.string_to_md5.take 11))
    · have := (string_md5_check _ hlen).mpr hc
      simp [hc, this]
    · have := mt (string_md5_check _ hlen).mp hc
      simp [hc, this]

/-- C7 (witness): the callee leaves the digest in `buf` and returns 0; the
scenario reports success. -/
theorem md5_digest_check_witness :
    (md5_env.md5_buf [] (Libcheri.md5_request md5_env)).length = 33 ∧
      md5_env.cinvoke [] (Libcheri.md5_request md5_env) =
        InvokeResult.returned 0 ∧
      (Libcheri.cheritest_invoke_md5 md5_env []).outcome =
        Outcome.success := by
  have hlen : (md5_env.md5_buf [] (Libcheri.md5_request md5_env)).length =
      33 := by
    set_option maxRecDepth 1000000 in decide
  have htake : (md5_env.md5_buf [] (Libcheri.md5_request md5_env)).take 32 =
      MD5.hex (MD5.digest (Libcheri.string_to_md5.take 11)) := by
    set_option maxRecDepth 1000000 in decide
  refine ⟨hlen, rfl, ?_⟩
  rw [(md5_digest_check md5_env [] 0 hlen rfl).2.2.2.2.2, if_pos htake]

/-! ### The calling convention -/

/-- C8: every argument list the harness hands to `sandbox_object_cinvoke`,
in `cheritest_libcheri.c` and in `cheritest.c`, has exactly seven scalar
arguments after the method number and exactly six capability arguments after
the system-object pair, and each capability argument that the call site does
not use for an argument of its own is `cheri_zerocap()`; the simple
operations pass seven zeros and six cleared capabilities. -/
theorem requests_follow_calling_convention (env : Env) :
    (∀ site : Libcheri.CallSite,
        (site.request env).scalars.length = 7 ∧
        (site.request env).caps.length = 6 ∧
        ∀ k : Fin 6, k.val ∈ site.used ∨
          (site.request env).caps[k.val]? = some cheri_zerocap) ∧
      (∀ site : CheritestC.CallSite,
        (site.request env).scalars.length = 7 ∧
        (site.request env).caps.length = 6 ∧
        ∀ k : Fin 6, k.val ∈ site.used ∨
          (site.request env).caps[k.val]? = some cheri_zerocap) ∧
      (∀ op : Int,
        (Libcheri.simple_request env op).scalars = List.replicate 7 0 ∧
        (Libcheri.simple_request env op).caps =
          List.replicate 6 cheri_zerocap ∧
        CheritestC.simple_request env op = Libcheri.simple_request env op) := by
  refine ⟨?_, ?_, ?_⟩
  · intro site
    cases site <;>
      refine ⟨rfl, rfl, fun k => ?_⟩ <;>
      fin_cases k <;>
      simp [Libcheri.CallSite.request, Libcheri.CallSite.used,
        Libcheri.fd_request, Libcheri.simple_request, Libcheri.md5_request,
        Libcheri.userfn_request, Libcheri.save_request]
  · intro site
    cases site <;>
      refine ⟨rfl, rfl, fun k => ?_⟩ <;>
      fin_cases k <;>
      simp [CheritestC.CallSite.request, CheritestC.CallSite.used,
        CheritestC.fd_request, CheritestC.simple_request,
        CheritestC.md5_request]
  · intro op
    exact ⟨rfl, rfl, rfl⟩

/-! ### `cheritest_sandbox_setup` -/

theorem sandbox_setup_unfold (S : SealOps) (root : Capability)
    (b e : Nat) (pc : Int) :
    CheritestC.cheritest_sandbox_setup S root b e pc =
      (S.sealcode (CheritestC.sealcode_operand root b e pc)).bind fun c =>
        (S.sealdata (CheritestC.sealdata_operands root b e pc).1
          (CheritestC.sealdata_operands root b e pc).2).map fun d => (c, d) := by
  unfold CheritestC.cheritest_sandbox_setup CheritestC.sealcode_operand
    CheritestC.sealdata_operands CheritestC.sandbox_basecap
  dsimp only
  split
  · next h1 => rw [h1]; rfl
  · next c h1 =>
      rw [h1, Option.some_bind]
      split
      · next h2 => rw [h2]; rfl
      · next d h2 => rw [h2]; rfl

theorem authoritySealOps_marks : authoritySealOps.Marks := by
  constructor
  · intro c r h
    simp only [authoritySealOps] at h
    split at h
    · cases h; rfl
    · cases h
  · intro c t r h
    simp only [authoritySealOps] at h
    split at h
    · cases h; rfl
    · cases h

theorem sandbox_basecap_length (root : Capability) (b e : Nat) (pc : Int)
    (hle : b ≤ e) (he : e < 2 ^ 64) :
    (CheritestC.sandbox_basecap root b e pc).tag = false ∨
      (CheritestC.sandbox_basecap root b e pc).length = e - b := by
  have hlen : (e + 2 ^ 64 - b) % 2 ^ 64 = e - b := by
    have h1 : e + 2 ^ 64 - b = (e - b) + 2 ^ 64 := by omega
    rw [h1, Nat.add_mod_right]
    exact Nat.mod_eq_of_lt (by omega)
  unfold CheritestC.sandbox_basecap cheri_ptrtype cheri_ptr derive
  rw [hlen]
  split
  · right; rfl
  · left; rfl

/-- C9: for every `sandbox_base <= sandbox_end` (64-bit addresses) and every
`sandbox_pc`, with sealing primitives that only set the sealed bit and the
type, the code capability and the data capability that
`cheritest_sandbox_setup` produces are derived from `basecap` without
widening: each has base at least the base of `basecap`, end at most its end
and permissions among its permissions; their length is the length of
`basecap`, which is `sandbox_end - sandbox_base` when `basecap` is tagged. -/
theorem sandbox_setup_narrows (S : SealOps) (root : Capability) (b e : Nat)
    (pc : Int) (code data : Capability) (hS : S.Marks) (hle : b ≤ e)
    (he : e < 2 ^ 64)
    (hres : CheritestC.cheritest_sandbox_setup S root b e pc =
      some (code, data)) :
    ((CheritestC.sandbox_basecap root b e pc).base ≤ code.base ∧
        code.base + code.length ≤
          (CheritestC.sandbox_basecap root b e pc).base +
            (CheritestC.sandbox_basecap root b e pc).length ∧
        code.perms ⊆ (CheritestC.sandbox_basecap root b e pc).perms) ∧
      ((CheritestC.sandbox_basecap root b e pc).base ≤ data.base ∧
        data.base + data.length ≤
          (CheritestC.sandbox_basecap root b e pc).base +
            (CheritestC.sandbox_basecap root b e pc).length ∧
        data.perms ⊆ (CheritestC.sandbox_basecap root b e pc).perms) ∧
      code.length = (CheritestC.sandbox_basecap root b e pc).length ∧
      data.length = (CheritestC.sandbox_basecap root b e pc).length ∧
      ((CheritestC.sandbox_basecap root b e pc).tag = false ∨
        (CheritestC.sandbox_basecap root b e pc).length = e - b) := by
  rw [sandbox_setup_unfold] at hres
  cases hc : S.sealcode (CheritestC.sealcode_operand root b e pc) with
  | none => simp [hc] at hres
  | some c =>
      cases hd : S.sealdata (CheritestC.sealdata_operands root b e pc).1
          (CheritestC.sealdata_operands root b e pc).2 with
      | none => simp [hc, hd] at hres
      | some d =>
          simp only [hc, hd, Option.some_bind, Option.map_some',
            Option.some.injEq, Prod.mk.injEq] at hres
          obtain ⟨rfl, rfl⟩ := hres
          have h1 := hS.1 _ _ hc
          have h2 := hS.2 _ _ _ hd
          have c_base : c.base = (CheritestC.sandbox_basecap root b e pc).base := by
            rw [h1]; rfl
          have c_len : c.length = (CheritestC.sandbox_basecap root b e pc).length := by
            rw [h1]; rfl
          have c_perms : c.perms = (CheritestC.sandbox_basecap root b e pc).perms ∩
              {Perm.EXECUTE, Perm.SEAL, Perm.STORE_EPHEM_CAP} := by
            rw [h1]; rfl
          have d_base : d.base = (CheritestC.sandbox_basecap root b e pc).base := by
            rw [h2]; rfl
          have d_len : d.length = (CheritestC.sandbox_basecap root b e pc).length := by
            rw [h2]; rfl
          have d_perms : d.perms = (CheritestC.sandbox_basecap root b e pc).perms ∩
              {Perm.LOAD, Perm.STORE, Perm.LOAD_CAP, Perm.STORE_CAP} := by
            rw [h2]; rfl
          refine ⟨⟨by omega, by omega, ?_⟩, ⟨by omega, by omega, ?_⟩,
            c_len, d_len, sandbox_basecap_length root b e pc hle he⟩
          · rw [c_perms]; exact Finset.inter_subset_left
          · rw [d_perms]; exact Finset.inter_subset_left

/-- C9 (witness): the sandbox `[4096, 8192)` under a root capability for the
whole address space, with sealing primitives that check the seal permission
on the capability supplying the type. -/
theorem sandbox_setup_narrows_witness :
    authoritySealOps.Marks ∧ 4096 ≤ 8192 ∧ 8192 < 2 ^ 64 ∧
      CheritestC.cheritest_sandbox_setup authoritySealOps sample_root
        4096 8192 0 = some (sample_codecap, sample_datacap) ∧
      sample_codecap.perms ⊆
        (CheritestC.sandbox_basecap sample_root 4096 8192 0).perms ∧
      sample_datacap.perms ⊆
        (CheritestC.sandbox_basecap sample_root 4096 8192 0).perms ∧
      sample_datacap.length =
        (CheritestC.sandbox_basecap sample_root 4096 8192 0).length :=
  have hres : CheritestC.cheritest_sandbox_setup authoritySealOps sample_root
      4096 8192 0 = some (sample_codecap, sample_datacap) := by decide
  have key := sandbox_setup_narrows authoritySealOps sample_root 4096 8192 0
    sample_codecap sample_datacap authoritySealOps_marks (by decide)
    (by decide) hres
  ⟨authoritySealOps_marks, by decide, by decide, hres, key.1.2.2,
    key.2.1.2.2, key.2.2.2.1⟩

/-- C10 (counterexample): for the sandbox `[4096, 8192)` under a root
capability holding every permission, the data capability handed to
`cheri_sealdata` does not hold the seal permission while its second operand
does; a seal that demands the permission on the data capability refuses, and
`cheritest_sandbox_setup` then yields no data capability. -/
theorem sealdata_operand_lacks_seal :
    Perm.SEAL ∉
        (CheritestC.sealdata_operands sample_root 4096 8192 0).1.perms ∧
      Perm.SEAL ∈
        (CheritestC.sealdata_operands sample_root 4096 8192 0).2.perms ∧
      spec_seal (CheritestC.sealdata_operands sample_root 4096 8192 0).1
        (CheritestC.sealdata_operands sample_root 4096 8192 0).2 = none ∧
      CheritestC.cheritest_sandbox_setup specSealOps sample_root
        4096 8192 0 = none := by
  decide

theorem authority_setup_seals (root : Capability) (b e : Nat) (pc : Int)
    (htag : (CheritestC.sandbox_basecap root b e pc).tag = true)
    (hseal : Perm.SEAL ∈ (CheritestC.sandbox_basecap root b e pc).perms) :
    ∃ code data,
      CheritestC.cheritest_sandbox_setup authoritySealOps root b e pc =
        some (code, data) ∧
      data.tag = true ∧ data.sealed = true ∧ Perm.SEAL ∉ data.perms := by
  have hc : Perm.SEAL ∈ (CheritestC.sealcode_operand root b e pc).perms := by
    simp [CheritestC.sealcode_operand, cheri_andperm, hseal]
  have hd : Perm.SEAL ∈
      (CheritestC.sealdata_operands root b e pc).2.perms := hseal
  refine ⟨{ CheritestC.sealcode_operand root b e pc with
              sealed := true,
              otype := (CheritestC.sealcode_operand root b e pc).otype },
    { (CheritestC.sealdata_operands root b e pc).1 with
        sealed := true,
        otype := (CheritestC.sealdata_operands root b e pc).2.otype },
    ?_, htag, rfl, ?_⟩
  · rw [sandbox_setup_unfold]
    simp only [authoritySealOps, hc, hd, if_true, Option.some_bind,
      Option.map_some']
  · simp [CheritestC.sealdata_operands, cheri_andperm]

/-- C10 (amended): at every call of `cheritest_sandbox_setup` the data
capability handed to `cheri_sealdata` is `basecap` restricted to LOAD, STORE,
LOAD_CAP and STORE_CAP, so it never holds the seal permission; the second
operand of `cheri_sealdata` is `basecap` itself, and the code capability
handed to `cheri_sealcode` holds the seal permission exactly when `basecap`
does.  A seal that demands the permission on the data capability therefore
refuses at every call, while with a seal that looks for the permission on
the capability supplying the type, and a tagged `basecap` that holds it,
sealing does not fail and the data capability that comes back is tagged and
sealed. -/
theorem sealdata_authority_is_basecap (S : SealOps) (root : Capability)
    (b e : Nat) (pc : Int) :
    CheritestC.cheritest_sandbox_setup S root b e pc =
        ((S.sealcode (CheritestC.sealcode_operand root b e pc)).bind fun c =>
          (S.sealdata (CheritestC.sealdata_operands root b e pc).1
            (CheritestC.sealdata_operands root b e pc).2).map
              fun d => (c, d)) ∧
      (CheritestC.sealdata_operands root b e pc).1.perms =
        (CheritestC.sandbox_basecap root b e pc).perms ∩
          {Perm.LOAD, Perm.STORE, Perm.LOAD_CAP, Perm.STORE_CAP} ∧
      Perm.SEAL ∉ (CheritestC.sealdata_operands root b e pc).1.perms ∧
      (CheritestC.sealdata_operands root b e pc).2 =
        CheritestC.sandbox_basecap root b e pc ∧
      (Perm.SEAL ∈ (CheritestC.sealcode_operand root b e pc).perms ↔
        Perm.SEAL ∈ (CheritestC.sandbox_basecap root b e pc).perms) ∧
      CheritestC.cheritest_sandbox_setup specSealOps root b e pc = none ∧
      ((CheritestC.sandbox_basecap root b e pc).tag = true ∧
          Perm.SEAL ∈ (CheritestC.sandbox_basecap root b e pc).perms →
        ∃ code data,
          CheritestC.cheritest_sandbox_setup authoritySealOps root b e pc =
            some (code, data) ∧
          data.tag = true ∧ data.sealed = true ∧
          Perm.SEAL ∉ data.perms) := by
  have hno : Perm.SEAL ∉
      (CheritestC.sealdata_operands root b e pc).1.perms := by
    simp [CheritestC.sealdata_operands, cheri_andperm]
  refine ⟨sandbox_setup_unfold S root b e pc, rfl, hno, rfl, ?_, ?_,
    fun hb => authority_setup_seals root b e pc hb.1 hb.2⟩
  · simp [CheritestC.sealcode_operand, cheri_andperm]
  · rw [sandbox_setup_unfold]
    have hd : specSealOps.sealdata
        (CheritestC.sealdata_operands root b e pc).1
        (CheritestC.sealdata_operands root b e pc).2 = none := by
      simp [specSealOps, spec_seal, hno]
    rw [hd]
    cases specSealOps.sealcode (CheritestC.sealcode_operand root b e pc) <;>
      rfl

/-- C10 (witness): the sandbox `[4096, 8192)` under a root capability that
holds every permission: `basecap` is tagged and holds the seal permission,
and with the seal that looks at the capability supplying the type the data
capability comes back tagged and sealed. -/
theorem sealdata_authority_is_basecap_witness :
    ((CheritestC.sandbox_basecap sample_root 4096 8192 0).tag = true ∧
        Perm.SEAL ∈ (CheritestC.sandbox_basecap sample_root 4096 8192 0).perms) ∧
      ∃ code data,
        CheritestC.cheritest_sandbox_setup authoritySealOps sample_root
          4096 8192 0 = some (code, data) ∧
        data.tag = true ∧ data.sealed = true ∧ Perm.SEAL ∉ data.perms :=
  ⟨by decide,
    (sealdata_authority_is_basecap authoritySealOps sample_root 4096 8192
      0).2.2.2.2.2.2 (by decide)⟩

/-! ### Permission check -/

theorem cheri_ptr_tagged (root : Capability) (ptr len : Nat)
    (h : (cheri_ptr root ptr len).tag = true) :
    cheri_ptr root ptr len =
      { root with base := ptr, length := len, offset := 0,
                  perms := root.perms } := by
  unfold cheri_ptr derive at h ⊢
  split
  · rfl
  · next hc =>
      rw [if_neg hc] at h
      simp [cheri_zerocap] at h

/-- C11: the permission check is a function of the capability and the
required set alone and holds exactly when the required permissions are among
those of the capability; the capability `cheritest_ccheck_user_fail` derives
has the empty permission set and its check for CHERI_PERM_USER0 fails; the
capability `cheritest_ccheck_user_pass` derives, from a parent that holds
USER0, has the permission set {USER0} and the same check passes. -/
theorem ccheck_user_fail_and_pass (root : Capability) (ch : Nat)
    (hvalid : (cheri_ptr root ch 1).tag = true)
    (huser : Perm.USER0 ∈ root.perms) :
    (∀ cap required, check_permission cap required = true ↔
        required ⊆ cap.perms) ∧
      (CheritestC.ccheck_user_fail_cap root ch).perms = ∅ ∧
      CheritestC.cheritest_ccheck_user_fail root ch = false ∧
      (CheritestC.ccheck_user_pass_cap root ch).perms = {Perm.USER0} ∧
      CheritestC.cheritest_ccheck_user_pass root ch = true := by
  have hfail : (CheritestC.ccheck_user_fail_cap root ch).perms = ∅ := by
    simp [CheritestC.ccheck_user_fail_cap, cheri_ptrperm, cheri_andperm]
  have hpass : (CheritestC.ccheck_user_pass_cap root ch).perms =
      {Perm.USER0} := by
    unfold CheritestC.ccheck_user_pass_cap cheri_ptrperm cheri_andperm
    rw [cheri_ptr_tagged root ch 1 hvalid]
    simp [huser]
  refine ⟨fun cap required => by simp [check_permission], hfail, ?_, hpass, ?_⟩
  · simp [CheritestC.cheritest_ccheck_user_fail, check_permission, hfail]
  · simp [CheritestC.cheritest_ccheck_user_pass, check_permission, hpass]

/-- C11 (witness): a one-byte object at address 4096 under a root capability
that holds every permission. -/
theorem ccheck_user_fail_and_pass_witness :
    (cheri_ptr sample_root 4096 1).tag = true ∧
      Perm.USER0 ∈ sample_root.perms ∧
      CheritestC.cheritest_ccheck_user_fail sample_root 4096 = false ∧
      CheritestC.cheritest_ccheck_user_pass sample_root 4096 = true :=
  have key := ccheck_user_fail_and_pass sample_root 4096 (by decide)
    (by decide)
  ⟨by decide, by decide, key.2.2.1, key.2.2.2.2⟩

/-! ### `cheritest_overrun` -/

/-- C16: with `arrayp` a valid capability for the ARRAY_LEN = 2 bytes of
`array`, `cheritest_overrun` performs the stores at offsets 0 and 1, both
within bounds, leaves the loop with i = ARRAY_LEN and performs one more
store, at offset ARRAY_LEN, which is the length of the capability and so
outside its bounds: three stores in all, the last one the only
violation. -/
theorem overrun_single_violation (root : Capability) (array : Nat)
    (hvalid : (cheri_ptr root array CheritestC.ARRAY_LEN).tag = true) :
    (cheri_ptr root array CheritestC.ARRAY_LEN).length =
        CheritestC.ARRAY_LEN ∧
      CheritestC.cheritest_overrun root array =
        { stores := [(0, true), (1, true), (CheritestC.ARRAY_LEN, false)],
          i := CheritestC.ARRAY_LEN } ∧
      in_bounds (cheri_ptr root array CheritestC.ARRAY_LEN)
        CheritestC.ARRAY_LEN = false ∧
      ((CheritestC.cheritest_overrun root array).stores.filter
        (fun s => !s.2)) = [(CheritestC.ARRAY_LEN, false)] := by
  have hlen : (cheri_ptr root array CheritestC.ARRAY_LEN).length =
      CheritestC.ARRAY_LEN := by
    rw [cheri_ptr_tagged root array _ hvalid]
  have hv2 : (cheri_ptr root array 2).tag = true := hvalid
  have hl2 : (cheri_ptr root array 2).length = 2 := hlen
  have hb : ∀ k, in_bounds (cheri_ptr root array 2) k = decide (k < 2) := by
    intro k
    simp [in_bounds, hv2, hl2]
  have hrun : CheritestC.cheritest_overrun root array =
      { stores := [(0, true), (1, true), (CheritestC.ARRAY_LEN, false)],
        i := CheritestC.ARRAY_LEN } := by
    unfold CheritestC.cheritest_overrun
    rw [CheritestC.overrun_loop, CheritestC.overrun_loop,
      CheritestC.overrun_loop]
    simp [hb, CheritestC.ARRAY_LEN]
  refine ⟨hlen, hrun, ?_, ?_⟩
  · simp [hb, CheritestC.ARRAY_LEN]
  · rw [hrun]
    simp

/-- C16 (witness): the array at address 4096 under a root capability for the
whole address space. -/
theorem overrun_single_violation_witness :
    (cheri_ptr sample_root 4096 CheritestC.ARRAY_LEN).tag = true ∧
      CheritestC.cheritest_overrun sample_root 4096 =
        { stores := [(0, true), (1, true), (2, false)], i := 2 } :=
  ⟨by decide, (overrun_single_violation sample_root 4096 (by decide)).2.1⟩

/-! ### The host callback -/

/-- C18: `cheritest_libcheri_userfn_handler` hands a value back exactly for
the three method numbers CHERITEST_USERFN_RETURNARG, _GETSTACK and
_SETSTACK; for every other method number, whatever the arguments, it reports
the failure "%s: unexpected method %ld" and hands nothing back. -/
theorem handler_unexpected_method (env : Env)
    (methodnum arg a2 a3 a4 a5 a6 a7 : Int) (so : cheri_object)
    (c3 c4 c5 c6 c7 : Capability) :
    ((∃ v, Libcheri.cheritest_libcheri_userfn_handler env methodnum arg
          a2 a3 a4 a5 a6 a7 so c3 c4 c5 c6 c7 =
          Libcheri.HandlerResult.value v) ↔
        (methodnum = env.ops.CHERITEST_USERFN_RETURNARG ∨
          methodnum = env.ops.CHERITEST_USERFN_GETSTACK ∨
          methodnum = env.ops.CHERITEST_USERFN_SETSTACK)) ∧
      ((methodnum = env.ops.CHERITEST_USERFN_RETURNARG ∨
          methodnum = env.ops.CHERITEST_USERFN_GETSTACK ∨
          methodnum = env.ops.CHERITEST_USERFN_SETSTACK) ∨
        Libcheri.cheritest_libcheri_userfn_handler env methodnum arg
          a2 a3 a4 a5 a6 a7 so c3 c4 c5 c6 c7 =
          Libcheri.HandlerResult.failure "%s: unexpected method %ld"
            [FmtArg.str "cheritest_libcheri_userfn_handler",
              FmtArg.reg methodnum]) := by
  unfold Libcheri.cheritest_libcheri_userfn_handler
  split_ifs <;> simp_all

/-! ### Separation of authority in `cheritest_sandbox_setup` -/

theorem sandbox_setup_perms (S : SealOps) (root : Capability) (b e : Nat)
    (pc : Int) (code data : Capability) (hS : S.Marks)
    (hres : CheritestC.cheritest_sandbox_setup S root b e pc =
      some (code, data)) :
    code.perms = (CheritestC.sandbox_basecap root b e pc).perms ∩
        {Perm.EXECUTE, Perm.SEAL, Perm.STORE_EPHEM_CAP} ∧
      data.perms = (CheritestC.sandbox_basecap root b e pc).perms ∩
        {Perm.LOAD, Perm.STORE, Perm.LOAD_CAP, Perm.STORE_CAP} := by
  rw [sandbox_setup_unfold] at hres
  cases hc : S.sealcode (CheritestC.sealcode_operand root b e pc) with
  | none => simp [hc] at hres
  | some c =>
      cases hd : S.sealdata (CheritestC.sealdata_operands root b e pc).1
          (CheritestC.sealdata_operands root b e pc).2 with
      | none => simp [hc, hd] at hres
      | some d =>
          simp only [hc, hd, Option.some_bind, Option.map_some',
            Option.some.injEq, Prod.mk.injEq] at hres
          obtain ⟨rfl, rfl⟩ := hres
          have h1 := hS.1 _ _ hc
          have h2 := hS.2 _ _ _ hd
          constructor
          · rw [h1]; rfl
          · rw [h2]; rfl

/-- C20: the permission mask of the code capability (EXECUTE, SEAL,
STORE_EPHEM_CAP) and that of the data capability (LOAD, STORE, LOAD_CAP,
STORE_CAP) in `cheritest_sandbox_setup` are disjoint; so for every input the
code capability it produces grants neither load nor store (of data or of
capabilities), the data capability grants no execute (nor seal), and no
permission is held by both. -/
theorem sandbox_setup_separates_authority (S : SealOps) (root : Capability)
    (b e : Nat) (pc : Int) (code data : Capability) (hS : S.Marks)
    (hres : CheritestC.cheritest_sandbox_setup S root b e pc =
      some (code, data)) :
    Disjoint ({Perm.EXECUTE, Perm.SEAL, Perm.STORE_EPHEM_CAP} : Finset Perm)
        {Perm.LOAD, Perm.STORE, Perm.LOAD_CAP, Perm.STORE_CAP} ∧
      code.perms ⊆ {Perm.EXECUTE, Perm.SEAL, Perm.STORE_EPHEM_CAP} ∧
      data.perms ⊆ {Perm.LOAD, Perm.STORE, Perm.LOAD_CAP, Perm.STORE_CAP} ∧
      (Perm.LOAD ∉ code.perms ∧ Perm.STORE ∉ code.perms ∧
        Perm.LOAD_CAP ∉ code.perms ∧ Perm.STORE_CAP ∉ code.perms) ∧
      (Perm.EXECUTE ∉ data.perms ∧ Perm.SEAL ∉ data.perms) ∧
      Disjoint code.perms data.perms := by
  obtain ⟨hc, hd⟩ := sandbox_setup_perms S root b e pc code data hS hres
  have hmask : Disjoint
      ({Perm.EXECUTE, Perm.SEAL, Perm.STORE_EPHEM_CAP} : Finset Perm)
      {Perm.LOAD, Perm.STORE, Perm.LOAD_CAP, Perm.STORE_CAP} := by decide
  have hcs : code.perms ⊆ {Perm.EXECUTE, Perm.SEAL, Perm.STORE_EPHEM_CAP} := by
    rw [hc]; exact Finset.inter_subset_right
  have hds : data.perms ⊆
      {Perm.LOAD, Perm.STORE, Perm.LOAD_CAP, Perm.STORE_CAP} := by
    rw [hd]; exact Finset.inter_subset_right
  refine ⟨hmask, hcs, hds, ⟨?_, ?_, ?_, ?_⟩, ⟨?_, ?_⟩,
    Disjoint.mono hcs hds hmask⟩
  · intro hm; have := hcs hm; revert this; decide
  · intro hm; have := hcs hm; revert this; decide
  · intro hm; have := hcs hm; revert this; decide
  · intro hm; have := hcs hm; revert this; decide
  · intro hm; have := hds hm; revert this; decide
  · intro hm; have := hds hm; revert this; decide

/-- C20 (witness): the sandbox `[4096, 8192)` under a root capability that
holds every permission. -/
theorem sandbox_setup_separates_authority_witness :
    authoritySealOps.Marks ∧
      CheritestC.cheritest_sandbox_setup authoritySealOps sample_root
        4096 8192 0 = some (sample_codecap, sample_datacap) ∧
      Perm.LOAD ∉ sample_codecap.perms ∧
      Perm.EXECUTE ∉ sample_datacap.perms ∧
      Disjoint sample_codecap.perms sample_datacap.perms :=
  have hres : CheritestC.cheritest_sandbox_setup authoritySealOps sample_root
      4096 8192 0 = some (sample_codecap, sample_datacap) := by decide
  have key := sandbox_setup_separates_authority authoritySealOps sample_root
    4096 8192 0 sample_codecap sample_datacap authoritySealOps_marks hres
  ⟨authoritySealOps_marks, hres, key.2.2.2.1.1, key.2.2.2.2.1.1,
    key.2.2.2.2.2⟩

/-! ### The two md5 requests -/

/-- C17 (counterexample): in the sample environment the request of
`cheritest_invoke_md5` in `cheritest.c` carries the length 11 as first scalar
argument, the request in `cheritest_libcheri.c` carries it as second scalar
argument; the two requests are different. -/
theorem md5_requests_differ :
    (CheritestC.md5_request md5_env).scalars = [11, 0, 0, 0, 0, 0, 0] ∧
      (Libcheri.md5_request md5_env).scalars = [0, 11, 0, 0, 0, 0, 0] ∧
      CheritestC.md5_request md5_env ≠ Libcheri.md5_request md5_env := by
  have h1 : (CheritestC.md5_request md5_env).scalars =
      [11, 0, 0, 0, 0, 0, 0] := by decide
  have h2 : (Libcheri.md5_request md5_env).scalars =
      [0, 11, 0, 0, 0, 0, 0] := by decide
  refine ⟨h1, h2, fun heq => ?_⟩
  have h3 := congrArg InvocationRequest.scalars heq
  rw [h1, h2] at h3
  revert h3
  decide

/-- C17 (amended): the two implementations of the md5 scenario build requests
with the same method index, the same system object and the same capability
arguments (the load-only capability for the 12 bytes of the string, the
store-only capability for the 33 bytes of `buf`, four cleared capabilities);
the only non-zero scalar argument of each is the length 11, which is the
first scalar argument in `cheritest.c` and the second in
`cheritest_libcheri.c`. -/
theorem md5_requests_agree_except_length_slot (env : Env) :
    (CheritestC.md5_request env).methodnum =
        env.ops.CHERITEST_HELPER_OP_MD5 ∧
      (Libcheri.md5_request env).methodnum =
        env.ops.CHERITEST_HELPER_OP_MD5 ∧
      (CheritestC.md5_request env).system_object =
        (Libcheri.md5_request env).system_object ∧
      (CheritestC.md5_request env).caps = (Libcheri.md5_request env).caps ∧
      (Libcheri.md5_request env).caps =
        [cheri_ptrperm env.default_cap env.md5_string_addr 12 {Perm.LOAD},
          cheri_ptrperm env.default_cap env.md5_buf_addr 33 {Perm.STORE},
          cheri_zerocap, cheri_zerocap, cheri_zerocap, cheri_zerocap] ∧
      (cheri_ptrperm env.default_cap env.md5_string_addr 12
        {Perm.LOAD}).perms ⊆ {Perm.LOAD} ∧
      (cheri_ptrperm env.default_cap env.md5_buf_addr 33
        {Perm.STORE}).perms ⊆ {Perm.STORE} ∧
      (CheritestC.md5_request env).scalars = [11, 0, 0, 0, 0, 0, 0] ∧
      (Libcheri.md5_request env).scalars = [0, 11, 0, 0, 0, 0, 0] := by
  have hC : strlen CheritestC.md5string = 11 := by decide
  have hL : strlen Libcheri.string_to_md5 = 11 := by decide
  refine ⟨rfl, rfl, rfl, rfl, rfl, ?_, ?_, ?_, ?_⟩
  · unfold cheri_ptrperm cheri_andperm
    exact Finset.inter_subset_right
  · unfold cheri_ptrperm cheri_andperm
    exact Finset.inter_subset_right
  · simp [CheritestC.md5_request, hC]
  · simp [Libcheri.md5_request, hL]

/-! ### The watchdog -/

theorem userfn_loop_no_alarm (env : Env) :
    ∀ (n : Nat) (i : Int) (h : List Event), (10 - i).toNat ≤ n →
      ∃ t, (Libcheri.userfn_loop env i h).trace = h ++ t ∧
        t.any is_alarm = false := by
  intro n
  induction n with
  | zero =>
      intro i h hn
      have hi : ¬ i < 10 := by omega
      rw [Libcheri.userfn_loop]
      simp only [hi, if_false]
      exact ⟨[], by simp, by simp⟩
  | succ n ih =>
      intro i h hn
      rw [Libcheri.userfn_loop]
      by_cases hi : i < 10
      · simp only [hi, if_true, sandbox_object_cinvoke]
        cases hr : env.cinvoke h (Libcheri.userfn_request env i) with
        | noreturn =>
            exact ⟨[Event.cinvoke (Libcheri.userfn_request env i)
              InvokeResult.noreturn], rfl, by simp [is_alarm]⟩
        | returned v =>
            by_cases hv : v = i
            · subst hv
              simp only [ne_eq, not_true_eq_false, if_false]
              obtain ⟨t, ht, hno⟩ := ih (v + 1)
                (h ++ [Event.cinvoke (Libcheri.userfn_request env v)
                  (InvokeResult.returned v)]) (by omega)
              refine ⟨Event.cinvoke (Libcheri.userfn_request env v)
                (InvokeResult.returned v) :: t, ?_, ?_⟩
              · rw [ht]; simp
              · simp [is_alarm, hno]
            · simp only [ne_eq, hv, not_false_eq_true, if_true]
              exact ⟨[Event.cinvoke (Libcheri.userfn_request env i)
                (InvokeResult.returned v)], rfl, by simp [is_alarm]⟩
      · simp only [hi, if_false]
        exact ⟨[], by simp, by simp⟩

/-- C15 (counterexample): run `cheritest_invoke_fd_op` of
`cheritest_libcheri.c` for the read operation from the empty history: the
invocation is issued and no alarm has been armed. -/
theorem fd_op_crossing_without_alarm :
    (Libcheri.cheritest_invoke_fd_op sentinel_env
        sentinel_env.ops.CHERITEST_HELPER_OP_FD_READ_C []).trace =
      [Event.cinvoke
        (Libcheri.fd_request sentinel_env
          sentinel_env.ops.CHERITEST_HELPER_OP_FD_READ_C)
        (InvokeResult.returned (-1))] ∧
    (Libcheri.cheritest_invoke_fd_op sentinel_env
        sentinel_env.ops.CHERITEST_HELPER_OP_FD_READ_C []).trace.any
      is_alarm = false := by
  constructor <;> decide

/-- C15 (amended): in `cheritest_libcheri.c` the simple operations and the
fault operations (`cheritest_invoke_simple_op`, `test_sandbox_op`) arm
`alarm(10)` immediately before the invocation; the file-descriptor
operations, md5, userfn, save_global and save_ephemeral issue their
invocations without arming any alarm. -/
theorem watchdog_only_on_simple_ops (env : Env) (op : Int) (h : List Event) :
    (Libcheri.cheritest_invoke_simple_op env op h).trace =
        h ++ [Event.alarm 10,
          Event.cinvoke (Libcheri.simple_request env op)
            (env.cinvoke (h ++ [Event.alarm 10])
              (Libcheri.simple_request env op))] ∧
      (Libcheri.test_sandbox_op env op h).1 =
        h ++ [Event.alarm 10,
          Event.cinvoke (Libcheri.simple_request env op)
            (env.cinvoke (h ++ [Event.alarm 10])
              (Libcheri.simple_request env op))] ∧
      (Libcheri.cheritest_invoke_fd_op env op h).trace =
        h ++ [Event.cinvoke (Libcheri.fd_request env op)
          (env.cinvoke h (Libcheri.fd_request env op))] ∧
      (Libcheri.cheritest_invoke_md5 env h).trace =
        h ++ [Event.cinvoke (Libcheri.md5_request env)
          (env.cinvoke h (Libcheri.md5_request env))] ∧
      (Libcheri.cheritest_save_global env h).trace =
        h ++ [Event.cinvoke (Libcheri.save_request env env.save_v_cap)
          (env.cinvoke h (Libcheri.save_request env env.save_v_cap))] ∧
      (Libcheri.cheritest_save_ephemeral env h).trace =
        h ++ [Event.cinvoke
          (Libcheri.save_request env (cheri_ephemeral env.save_v_cap))
          (env.cinvoke h
            (Libcheri.save_request env (cheri_ephemeral env.save_v_cap)))] ∧
      (∃ t, (Libcheri.cheritest_libcheri_userfn env h).trace = h ++ t ∧
        t.any is_alarm = false) := by
  refine ⟨?_, ?_, ?_, ?_, ?_, ?_, ?_⟩
  · unfold Libcheri.cheritest_invoke_simple_op sandbox_object_cinvoke
    cases env.cinvoke (h ++ [Event.alarm 10])
      (Libcheri.simple_request env op) <;> simp
  · simp [Libcheri.test_sandbox_op, sandbox_object_cinvoke]
  · unfold Libcheri.cheritest_invoke_fd_op sandbox_object_cinvoke
    cases env.cinvoke h (Libcheri.fd_request env op) <;> simp
  · unfold Libcheri.cheritest_invoke_md5 sandbox_object_cinvoke
    cases hr : env.cinvoke h (Libcheri.md5_request env) with
    | noreturn => simp [hr]
    | returned v =>
        by_cases hc : strcmp ((env.md5_buf h (Libcheri.md5_request env)).set
            32 0) Libcheri.string_md5 = 0
        · simp [hr, hc]
        · simp [hr, hc]
  · unfold Libcheri.cheritest_save_global sandbox_object_cinvoke
    cases hr : env.cinvoke h (Libcheri.save_request env env.save_v_cap) with
    | noreturn => simp [hr]
    | returned v =>
        by_cases hv : v = 0
        · simp [hr, hv]
        · simp [hr, hv]
  · unfold Libcheri.cheritest_save_ephemeral sandbox_object_cinvoke
    cases hr : env.cinvoke h
      (Libcheri.save_request env (cheri_ephemeral env.save_v_cap)) <;>
      simp [hr]
  · exact userfn_loop_no_alarm env 10 0 h (by decide)

/-! ### Teardown -/

/-- C12: `cheritest_libcheri_destroy` destroys the Object and then the Class
(in both files), and in `cheritest_libcheri.c` it then destroys the
`/dev/zero` pair and only after that closes the descriptor.  On a registry in
which the Class and the Object of the globals are live and the Object is the
only Object of the Class, the teardown meets no error, so no `InUse`; the
opposite order would meet `InUse`. -/
theorem teardown_object_before_class (r : Registry) (g : Handles)
    (hclass : g.classp ∈ r.classes)
    (hobj : (g.objectp, g.classp) ∈ r.objects)
    (honly : ∀ p ∈ r.objects, p.2 = g.classp → p.1 = g.objectp) :
    CheritestC.cheritest_libcheri_destroy =
        [Step.sandbox_object_destroy, Step.sandbox_class_destroy] ∧
      Libcheri.cheritest_libcheri_destroy =
        [Step.sandbox_object_destroy, Step.sandbox_class_destroy,
          Step.cheri_fd_destroy, Step.close_fd] ∧
      (∃ r1, Registry.teardown g r CheritestC.cheritest_libcheri_destroy =
        Except.ok r1) ∧
      (∃ r1, Registry.teardown g r Libcheri.cheritest_libcheri_destroy =
        Except.ok r1) ∧
      Registry.teardown g r
          [Step.sandbox_class_destroy, Step.sandbox_object_destroy] =
        Except.error RegistryError.InUse := by
  have h1 : r.objects.any (fun p => p.1 == g.objectp) = true := by
    rw [List.any_eq_true]
    exact ⟨_, hobj, by simp⟩
  have h2 : r.classes.contains g.classp = true := by
    simpa using hclass
  have h3 : (r.objects.filter (fun p => p.1 != g.objectp)).any
      (fun p => p.2 == g.classp) = false := by
    rw [Bool.eq_false_iff]
    intro hany
    rw [List.any_eq_true] at hany
    obtain ⟨p, hp, hc⟩ := hany
    rw [List.mem_filter] at hp
    have hpc : p.2 = g.classp := by simpa using hc
    have hpo : p.1 = g.objectp := honly p hp.1 hpc
    simp [hpo] at hp
  have h4 : r.objects.any (fun p => p.2 == g.classp) = true := by
    rw [List.any_eq_true]
    exact ⟨_, hobj, by simp⟩
  refine ⟨rfl, rfl, ?_, ?_, ?_⟩
  · simp [CheritestC.cheritest_libcheri_destroy, Registry.teardown,
      Registry.destroy_object, Registry.destroy_class, h1, h2, h3, hclass]
  · simp [Libcheri.cheritest_libcheri_destroy, Registry.teardown,
      Registry.destroy_object, Registry.destroy_class, h1, h2, h3, hclass]
  · simp [Registry.teardown, Registry.destroy_class, h2, h4, hclass]

/-- C12 (witness): the registry a successful set-up leaves behind, one Class
with one Object. -/
theorem teardown_object_before_class_witness :
    sample_handles.classp ∈ sample_registry.classes ∧
      (sample_handles.objectp, sample_handles.classp) ∈
        sample_registry.objects ∧
      (∀ p ∈ sample_registry.objects,
        p.2 = sample_handles.classp → p.1 = sample_handles.objectp) ∧
      Registry.teardown sample_handles sample_registry
          Libcheri.cheritest_libcheri_destroy =
        Except.ok { classes := [], objects := [] } ∧
      Registry.teardown sample_handles sample_registry
          [Step.sandbox_class_destroy, Step.sandbox_object_destroy] =
        Except.error RegistryError.InUse :=
  ⟨by decide, by decide, by decide, rfl,
    (teardown_object_before_class sample_registry sample_handles
      (by decide) (by decide) (by decide)).2.2.2.2⟩

/-! ### Set-up failures and `main` -/

/-- C13 (the code at the failing input): when loading the class fails,
`cheritest_libcheri_setup` declares no method and returns -1 in both files;
`main` of `cheritest.c`, called with `invoke_abort`, goes on: it issues the
invocation, prints the value, tears down and exits with `EX_OK`. -/
theorem setup_failure_ignored_by_main :
    CheritestC.cheritest_libcheri_setup no_class_host sample_ops =
        ([Step.sandbox_class_new false], -1) ∧
      Libcheri.cheritest_libcheri_setup no_class_host sample_ops =
        ([Step.open_dev_zero true, Step.cheri_fd_new true,
          Step.sandbox_class_new false], SetupResult.returned (-1)) ∧
      CheritestC.main sentinel_env no_class_host (some ["invoke_abort"]) =
        { steps :=
            [Step.open_dev_zero true, Step.cheri_fd_new true,
              Step.sandbox_class_new false,
              Step.scenario (Scenario.invoke_simple_op
                sample_ops.CHERITEST_HELPER_OP_ABORT),
              Step.event (Event.cinvoke
                (CheritestC.simple_request sentinel_env
                  sample_ops.CHERITEST_HELPER_OP_ABORT)
                (InvokeResult.returned (-1))),
              Step.event (Event.printf "%s: sandbox returned %jd\n"
                [FmtArg.str "cheritest_invoke_simple_op", FmtArg.reg (-1)]),
              Step.sandbox_object_destroy, Step.sandbox_class_destroy],
          ended := Ended.exited EX_OK } := by
  refine ⟨by decide, by decide, by decide⟩

theorem usage_names_eq :
    CheritestC.usage_names =
      ["creturn", "ccall_creturn", "ccall_nop_creturn", "ccheck_user_fail",
       "ccheck_user_pass", "copyregs", "invoke_abort", "invoke_cp2_bound",
       "invoke_cp2_perm", "invoke_cp2_seal", "invoke_cp2_tag",
       "invoke_divzero", "invoke_fd_fstat_c", "invoke_fd_lseek_c",
       "invoke_fd_read_c", "invoke_fd_write_c", "invoke_helloworld",
       "invoke_md5", "invoke_malloc", "invoke_printf", "invoke_putchar",
       "invoke_puts", "invoke_spin", "invoke_syscall", "invoke_syscap",
       "invoke_vm_rfault", "invoke_vm_wfault", "invoke_vm_xfault",
       "listcausereg", "listprivregs", "listregs", "overrun", "revoke_fd",
       "sleep"] := by
  decide

theorem dispatch_usage_names (ops : HelperOps) :
    CheritestC.usage_names.all
      (fun n => (CheritestC.dispatch ops n).isSome) = true := by
  rw [usage_names_eq]
  rfl

theorem dispatch_other_name (ops : HelperOps) (name : String)
    (h : name ∉ CheritestC.usage_names) :
    CheritestC.dispatch ops name = none := by
  rw [usage_names_eq] at h
  simp only [List.mem_cons, List.mem_singleton, List.not_mem_nil, or_false,
    not_or] at h
  simp [CheritestC.dispatch, h]

theorem dispatch_isSome_iff (ops : HelperOps) (name : String) :
    (CheritestC.dispatch ops name).isSome = true ↔
      name ∈ CheritestC.usage_names := by
  constructor
  · intro hs
    by_contra hm
    rw [dispatch_other_name ops name hm] at hs
    simp at hs
  · intro hm
    exact List.all_eq_true.mp (dispatch_usage_names ops) name hm

/-- C19: `usage` advertises 34 different scenario names and they are exactly
the names the dispatch chain of `main` accepts; an argument that is not one
of them leads, when the loop reaches it, to `usage` and the exit status
`EX_USAGE` (so does `main` called with that argument alone, once `/dev/zero`
is opened and wrapped), and so do an empty argument list and an option. -/
theorem usage_names_are_dispatch_names (env : Env) (host : Host) :
    CheritestC.usage_lines.length = 34 ∧
      CheritestC.usage_names.length = 34 ∧
      CheritestC.usage_names.Nodup ∧
      (∀ name, (CheritestC.dispatch env.ops name).isSome = true ↔
        name ∈ CheritestC.usage_names) ∧
      (∀ name rest steps h, name ∈ CheritestC.usage_names ∨
        CheritestC.main_loop env host (name :: rest) steps h =
          { steps := steps ++ [Step.usage],
            ended := Ended.exited EX_USAGE }) ∧
      (∀ name, name ∈ CheritestC.usage_names ∨ host.open_ok = false ∨
        host.fd_new_ok = false ∨
        (CheritestC.main env host (some [name])).ended =
          Ended.exited EX_USAGE) ∧
      CheritestC.main env host (some []) =
        { steps := [Step.usage], ended := Ended.exited EX_USAGE } ∧
      CheritestC.main env host none =
        { steps := [Step.usage], ended := Ended.exited EX_USAGE } := by
  have hloop : ∀ name rest steps h, name ∈ CheritestC.usage_names ∨
      CheritestC.main_loop env host (name :: rest) steps h =
        { steps := steps ++ [Step.usage],
          ended := Ended.exited EX_USAGE } := by
    intro name rest steps h
    by_cases hm : name ∈ CheritestC.usage_names
    · exact Or.inl hm
    · right
      simp only [CheritestC.main_loop, dispatch_other_name env.ops name hm]
  refine ⟨by decide, by decide, by decide, dispatch_isSome_iff env.ops,
    hloop, ?_, rfl, rfl⟩
  intro name
  by_cases hm : name ∈ CheritestC.usage_names
  · exact Or.inl hm
  · by_cases h1 : host.open_ok = false
    · exact Or.inr (Or.inl h1)
    · by_cases h2 : host.fd_new_ok = false
      · exact Or.inr (Or.inr (Or.inl h2))
      · right; right; right
        simp only [CheritestC.main, h1, h2, if_false]
        rcases hloop name [] ([Step.open_dev_zero true,
          Step.cheri_fd_new true] ++
          (CheritestC.cheritest_libcheri_setup host env.ops).1) [] with h | h
        · exact absurd h hm
        · rw [h]
          simp

end Cheritest
